import Mathlib

/-!
# BattleChain core: shallow embedding of `src/game.rs`

This file embeds the entropy-pool and battle-engine core of the BattleChain
Anchor program (`src/game.rs`) and proves properties of its claims.

Modelling conventions:
* Machine integers (`u8/u16/u32/u64/u128`) are `Nat`s; wrapping is written
  with explicit `% 2^w`, Rust `saturating_add`/`saturating_mul` as `min _ (2^w - 1)`,
  `saturating_sub` as `Nat` subtraction (which floors at 0), and `checked_*`
  as an explicit bound test returning `GameError.MathOverflow` (an on-chain
  arithmetic panic likewise aborts the transaction, which in this all-or-nothing
  model is the same observable outcome as a returned error).
* `i64` timestamps are `Int`; `Pubkey`s are opaque `Nat`s.
* Anchor's `Result<()>`/`require!` is `Except GameError`; an `error` result
  means the transaction reverted with no state change (Anchor rolls back all
  account mutations on error), so operations are `state -> Except GameError state`.
* The Solana `hashv` digest (first 8 bytes as LE `u64`) is external library
  code, modelled as an arbitrary function `hash8 : DrawInput -> Nat` threaded
  through the operations; its output is reduced `% 2^64` where the code reads
  a `u64`.
* Token/lamport CPI transfers, PDA bookkeeping (bumps, account keys) and event
  emission are external plumbing with no effect on the modelled state and are
  omitted.
-/

-- Fixed-point & limits (src/game.rs lines 38-43)
def FP_SCALE : Nat := 1000000
def MAX_TOTAL_MULTIPLIER_FP : Nat := 10000000
def MAX_COMBO_STACK : Nat := 5
def MAX_BATCHES : Nat := 8
def MIN_ENTROPY_PER_TURN : Nat := 4

-- integer width bounds, as literals (kernel-reduction friendly)
def U64 : Nat := 18446744073709551616   -- 2 ^ 64
def U32 : Nat := 4294967296             -- 2 ^ 32
def U128 : Nat := 340282366920938463463374607431768211456 -- 2 ^ 128

def sat64 (x : Nat) : Nat := min x (U64 - 1)
def sat32 (x : Nat) : Nat := min x (U32 - 1)
def sat16 (x : Nat) : Nat := min x 65535
def sat8 (x : Nat) : Nat := min x 255
def satI16 (x : Int) : Int := max (-32768) (min x 32767)

inductive CharacterClass
  | Warrior | Assassin | Mage | Tank | Trickster
deriving DecidableEq

inductive BattleState
  | Waiting | Active | Finished
deriving DecidableEq

inductive StanceType
  | Balanced | Aggressive | Defensive | Berserker | Counter
deriving DecidableEq

inductive JoinStatus
  | Pending | Approved | Rejected | Withdrawn
deriving DecidableEq

inductive GameError
  | UnauthorizedRefill | SeedReplay | EntropyPoolFull | NoEntropyAvailable
  | InvalidIndex | InvalidRange | MathOverflow | InvalidNftAta | NotNftOwner
  | OfferNotActive | CharacterConstraint | Unauthorized | InvalidRequestState
  | InvalidBattleState | BattleAlreadyFinished | NotYourTurn | SpecialOnCooldown
  | InvalidTimestamp | BattleNotFinished | AutoApproveDisabled
  | SPLNotWhitelisted | TimeoutNotReached
deriving DecidableEq

-- Explicit Except chaining (Anchor's `?` operator): an error short-circuits.
def ebind {α β : Type} (x : Except GameError α) (f : α → Except GameError β) :
    Except GameError β :=
  match x with
  | .error e => .error e
  | .ok a => f a

def exc_ok {α : Type} : Except GameError α → Bool
  | .ok _ => true
  | .error _ => false

def get_ok {α : Type} (r : Except GameError α) (dflt : α) : α :=
  match r with
  | .ok a => a
  | .error _ => dflt

-- ------------------------
-- EntropyPool (src/game.rs lines 1005-1026, 1226-1260)
-- ------------------------

structure SeedBatch where
  seed : Nat
  start : Nat
  count : Nat
  consumed : Nat
deriving DecidableEq

structure EntropyPool where
  authority : Nat
  vrf_oracle : Nat
  head : Nat
  tail : Nat
  total_available : Nat
  global_next_index : Nat
  batches : Fin 8 → SeedBatch

def batch_at (p : EntropyPool) (k : Nat) : SeedBatch :=
  p.batches ⟨k % 8, Nat.mod_lt k (by norm_num)⟩

def tail_slot (p : EntropyPool) : Fin 8 :=
  ⟨p.tail % 8, Nat.mod_lt p.tail (by norm_num)⟩

-- src/game.rs lines 73-86 (`create_entropy_pool`); Anchor `init` zeroes the account.
def create_entropy_pool (authority vrf_oracle : Nat) : EntropyPool :=
  { authority := authority
    vrf_oracle := vrf_oracle
    head := 0
    tail := 0
    total_available := 0
    global_next_index := 0
    batches := fun _ => ⟨0, 0, 0, 0⟩ }

/-- src/game.rs lines 89-109 (`refill_seed_batch`). The `checked_add` on
`global_next_index` appears textually after the slot writes, but an error there
reverts the whole transaction, so it is hoisted into the success condition. -/
def refill_seed_batch (p : EntropyPool) (caller : Nat) (seed : Nat)
    (start_index : Nat) (count : Nat) : Except GameError EntropyPool :=
  if ¬ (caller = p.vrf_oracle ∨ caller = p.authority) then .error .UnauthorizedRefill
  else if ¬ 0 < count then .error .InvalidRange
  else if ¬ start_index ≥ p.global_next_index then .error .SeedReplay
  else if ¬ start_index + count < U64 then .error .MathOverflow
  else .ok { p with
    batches := Function.update p.batches (tail_slot p)
      { seed := seed, start := start_index, count := count, consumed := 0 }
    tail := (p.tail + 1) % 8
    total_available := sat64 (p.total_available + count)
    global_next_index := start_index + count }

/-- Input to the Solana `hashv([&seed, &offset.to_le_bytes(), &signer, user_seed, &tn])`
digest (src/game.rs line 1243); the digest itself is external library code,
represented by an arbitrary `hash8` function. -/
structure DrawInput where
  seed : Nat
  offset : Nat
  signer : Nat
  user_seed : String
  turn_number : Nat
deriving DecidableEq

/-- The scan loop of `consume_mixed_u64_return_index` (src/game.rs lines 1232-1238):
starting at `head % 8`, the first of the 8 ring slots with unconsumed entries;
a full cycle without one is the defensive `NoEntropyAvailable` failure. -/
def find_live (p : EntropyPool) : Option (Fin 8) :=
  ((List.range 8).find? fun k =>
      decide ((batch_at p (p.head % 8 + k)).consumed < (batch_at p (p.head % 8 + k)).count)).map
    fun k => ⟨(p.head % 8 + k) % 8, Nat.mod_lt _ (by norm_num)⟩

/-- src/game.rs lines 1227-1259 (`EntropyPool::consume_mixed_u64_return_index`).
`max - min + 1` is computed in `u64`; when it overflows (min = 0, max = u64::MAX)
the program panics (overflow check or division by zero), aborting the
transaction — modelled as `MathOverflow`. -/
def consume_mixed_u64_return_index (hash8 : DrawInput → Nat) (p : EntropyPool)
    (signer : Nat) (user_seed : String) (turn_number lo hi : Nat) :
    Except GameError ((Nat × Nat) × EntropyPool) :=
  if ¬ hi ≥ lo then .error .InvalidRange
  else if ¬ 0 < p.total_available then .error .NoEntropyAvailable
  else
    match find_live p with
    | none => .error .NoEntropyAvailable
    | some i =>
      let b := p.batches i
      let offset := sat64 (b.start + b.consumed)
      let range := (hi - lo + 1) % U64
      if ¬ 0 < range then .error .MathOverflow
      else
        let val := lo +
          hash8 { seed := b.seed, offset := offset, signer := signer,
                  user_seed := user_seed, turn_number := turn_number } % U64 % range
        let consumed' := min (b.consumed + 1) (U32 - 1)
        .ok ((val, offset),
          { p with
            batches := Function.update p.batches i { b with consumed := consumed' }
            total_available := p.total_available - 1
            head := if consumed' ≥ b.count then (p.head + 1) % 8 else p.head })

-- ------------------------
-- Characters, progression, battles (src/game.rs lines 1028-1125)
-- ------------------------

structure Character where
  nft_mint : Nat
  base_class : CharacterClass
  max_hp : Nat
  current_hp : Nat
  base_damage_min : Nat
  base_damage_max : Nat
  crit_bps : Nat
  crit_multiplier_fp : Nat
  dodge_bps : Nat
  defense : Nat
  special_cooldown : Nat
  last_damage : Nat
  combo_count : Nat
  lifes : Nat
  mod_attack_bps : Int
  mod_defense_bps : Int
  mod_crit_bps : Int
  rarity : Nat
  created_at : Int

structure Progression where
  nft_mint : Nat
  xp : Nat
  level : Nat
  mmr : Nat
  last_played : Int

structure Battle where
  battle_id : Nat
  player1 : Nat
  player2 : Nat
  start_ts : Int
  current_turn : Nat
  turn_number : Nat
  player1_health : Nat
  player2_health : Nat
  state : BattleState
  player1_stance : StanceType
  player2_stance : StanceType
  created_at : Int
  inactivity_timeout : Int
  last_action_ts : Int
  winner : Option Nat
  player1_dot_damage : Nat
  player2_dot_damage : Nat
  player1_dot_turns : Nat
  player2_dot_turns : Nat
  player1_reflection : Nat
  player2_reflection : Nat
  player1_miss_count : Nat
  player2_miss_count : Nat
  last_entropy_index : Nat

structure TraitBundle where
  rarity : Nat
  attack_bps : Int
  defense_bps : Int
  crit_bps : Int
  nonce : Int

/-- src/game.rs lines 114-158 (`create_character_from_nft`), state effect on the
Character account. Anchor `init` zeroes the account, so every field the handler
does not assign (notably `crit_multiplier_fp`, `dodge_bps`, the trait modifiers
and `rarity`) remains 0. NFT-ownership checks concern external token accounts. -/
def create_character_from_nft (nft_mint : Nat) (base_class : CharacterClass)
    (now : Int) : Character :=
  let base : Character :=
    { nft_mint := nft_mint, base_class := base_class
      max_hp := 0, current_hp := 0, base_damage_min := 0, base_damage_max := 0
      crit_bps := 0, crit_multiplier_fp := 0, dodge_bps := 0, defense := 0
      special_cooldown := 0, last_damage := 0, combo_count := 0, lifes := 0
      mod_attack_bps := 0, mod_defense_bps := 0, mod_crit_bps := 0, rarity := 0
      created_at := now }
  match base_class with
  | .Warrior => { base with max_hp := 120, current_hp := 120, base_damage_min := 8, base_damage_max := 15, crit_bps := 1500 }
  | .Assassin => { base with max_hp := 90, current_hp := 90, base_damage_min := 12, base_damage_max := 20, crit_bps := 3500 }
  | .Mage => { base with max_hp := 80, current_hp := 80, base_damage_min := 10, base_damage_max := 18, crit_bps := 2000 }
  | .Tank => { base with max_hp := 150, current_hp := 150, base_damage_min := 6, base_damage_max := 12, crit_bps := 1000 }
  | .Trickster => { base with max_hp := 100, current_hp := 100, base_damage_min := 8, base_damage_max := 16, crit_bps := 2500 }

/-- src/game.rs lines 161-174 (`apply_trait_bundle`), state effect on the
Character PDA (the trait-authority signature check is an account constraint). -/
def apply_trait_bundle (ch : Character) (bundle : TraitBundle) : Character :=
  { ch with
    mod_attack_bps := satI16 (ch.mod_attack_bps + bundle.attack_bps)
    mod_defense_bps := satI16 (ch.mod_defense_bps + bundle.defense_bps)
    mod_crit_bps := satI16 (ch.mod_crit_bps + bundle.crit_bps)
    rarity := bundle.rarity }

-- ------------------------
-- FP helpers (src/game.rs lines 1189-1223)
-- ------------------------

def mul_fp_checked (value_fp mul_fp : Nat) : Except GameError Nat :=
  if value_fp * mul_fp < U128 then .ok (value_fp * mul_fp / FP_SCALE)
  else .error .MathOverflow

def u128_checked_mul (a b : Nat) : Except GameError Nat :=
  if a * b < U128 then .ok (a * b) else .error .MathOverflow

def u128_checked_add (a b : Nat) : Except GameError Nat :=
  if a + b < U128 then .ok (a + b) else .error .MathOverflow

def fp_to_u64_clamped (value_fp : Nat) : Except GameError Nat :=
  if value_fp / FP_SCALE > U64 - 1 then .error .MathOverflow
  else .ok (value_fp / FP_SCALE)

/-- src/game.rs lines 1203-1223 (`stance_multipliers`):
(attacker_fp, defender_fp, self_damage_bps, counter_bps). -/
def stance_multipliers (att dfn : StanceType) : Nat × Nat × Nat × Nat :=
  let att_fp := match att with
    | .Aggressive => FP_SCALE * 130 / 100
    | .Defensive => FP_SCALE * 70 / 100
    | .Berserker => FP_SCALE * 200 / 100
    | .Counter => FP_SCALE * 90 / 100
    | .Balanced => FP_SCALE
  let self_bps : Nat := match att with
    | .Berserker => 2500
    | _ => 0
  let def_fp := match dfn with
    | .Defensive => FP_SCALE * 50 / 100
    | .Aggressive => FP_SCALE * 150 / 100
    | _ => FP_SCALE
  let counter_bps : Nat := match dfn with
    | .Counter => 4000
    | _ => 0
  (att_fp, def_fp, self_bps, counter_bps)

-- src/game.rs lines 1263-1283: quadratic XP curve and level-up loop.
def next_level_xp (level : Nat) : Nat := sat64 (100 * sat64 (level * level))

/-- The `loop` of `level_up_if_needed`, with explicit fuel. Each iteration with
`level ≥ 1` strictly reduces `xp` by `next_level_xp level ≥ 100`, and at most one
iteration (a zero `level`) costs no xp, so `xp + 2` iterations always suffice. -/
def level_up_go : Nat → Progression → Character → Progression × Character
  | 0, prog, ch => (prog, ch)
  | fuel + 1, prog, ch =>
    let need := next_level_xp prog.level
    if prog.xp ≥ need then
      let prog' := { prog with xp := prog.xp - need, level := sat16 (prog.level + 1) }
      let new_max := sat32 (ch.max_hp + max (ch.max_hp / 20) 1)
      let ch' := { ch with
        max_hp := new_max
        current_hp := new_max
        base_damage_min := sat16 (ch.base_damage_min + max (ch.base_damage_min / 10) 1)
        base_damage_max := sat16 (ch.base_damage_max + max (ch.base_damage_max / 10) 1) }
      level_up_go fuel prog' ch'
    else (prog, ch)

def level_up_if_needed (prog : Progression) (ch : Character) :
    Progression × Character :=
  level_up_go (prog.xp + 2) prog ch

-- ------------------------
-- Battle turn engine (src/game.rs lines 513-694)
-- ------------------------

/-- The mutable accounts of one `execute_turn` call. -/
structure TurnState where
  pool : EntropyPool
  battle : Battle
  attacker_character : Character
  defender_character : Character
  attacker_prog : Progression
  defender_prog : Progression

/-- src/game.rs lines 523-529: battle-state, signer/turn authorization and
entropy-liveness checks; returns `is_player1`. -/
def turn_checks (signer : Nat) (s : TurnState) : Except GameError Bool :=
  if ¬ s.battle.state = BattleState.Active then .error .InvalidBattleState
  else
    ebind (if signer = s.battle.player1 then .ok true
           else if signer = s.battle.player2 then .ok false
           else .error .Unauthorized) fun is_player1 =>
      if ¬ s.battle.current_turn = (if is_player1 then 1 else 2) then .error .NotYourTurn
      else if ¬ s.pool.total_available ≥ MIN_ENTROPY_PER_TURN then .error .NoEntropyAvailable
      else .ok is_player1

/-- src/game.rs lines 532-536: record `last_action_ts` and set the attacker's stance. -/
def set_stance (is_player1 : Bool) (chosen_stance : StanceType) (now : Int)
    (b : Battle) : Battle :=
  { b with
    last_action_ts := now
    player1_stance := if is_player1 then chosen_stance else b.player1_stance
    player2_stance := if is_player1 then b.player2_stance else chosen_stance }

/-- One entropy draw plus the per-battle monotonicity `require!` that follows each
of the five draw sites (src/game.rs lines 499-502, 541-543, 548-550, 554-556, 559-561). -/
def drawChecked (hash8 : DrawInput → Nat) (signer : Nat) (tag : String)
    (p : EntropyPool) (b : Battle) (lo hi : Nat) :
    Except GameError (Nat × EntropyPool × Battle) :=
  match consume_mixed_u64_return_index hash8 p signer tag (b.turn_number % U32) lo hi with
  | .error e => .error e
  | .ok ((v, used_index), p') =>
    if used_index > b.last_entropy_index then
      .ok (v, p', { b with last_entropy_index := used_index })
    else .error .SeedReplay

/-- src/game.rs lines 573-582: combo stacking on a repeated base roll. -/
def apply_combo (base : Nat) (damage_fp : Nat) (ac : Character) :
    Except GameError (Nat × Character) :=
  if ac.last_damage = min base 65535 then
    let cc0 := sat8 (ac.combo_count + 1)
    let cc := if cc0 > MAX_COMBO_STACK then MAX_COMBO_STACK else cc0
    match mul_fp_checked damage_fp (FP_SCALE + 150000 * cc) with
    | .error e => .error e
    | .ok d => .ok (d, { ac with combo_count := cc, last_damage := min base 65535 })
  else .ok (damage_fp, { ac with combo_count := 0, last_damage := min base 65535 })

/-- src/game.rs lines 585-595: class specials, gated on `special_cooldown == 0`. -/
def apply_special (use_special is_player1 : Bool) (damage_fp : Nat) (b : Battle)
    (ac : Character) : Except GameError (Nat × Battle × Character) :=
  if use_special then
    if ¬ ac.special_cooldown = 0 then .error .SpecialOnCooldown
    else
      match ac.base_class with
      | .Warrior =>
        match mul_fp_checked damage_fp (FP_SCALE * 3) with
        | .error e => .error e
        | .ok d => .ok (d, b, { ac with special_cooldown := 3 })
      | .Assassin =>
        match mul_fp_checked damage_fp (FP_SCALE * 3) with
        | .error e => .error e
        | .ok d => .ok (d, b, { ac with special_cooldown := 4 })
      | .Mage =>
        let b' := if is_player1 then
            { b with player2_dot_damage := sat64 (b.player2_dot_damage + 5)
                     player2_dot_turns := sat8 (b.player2_dot_turns + 3) }
          else
            { b with player1_dot_damage := sat64 (b.player1_dot_damage + 5)
                     player1_dot_turns := sat8 (b.player1_dot_turns + 3) }
        .ok (damage_fp, b', { ac with special_cooldown := 3 })
      | .Tank =>
        let b' := if is_player1 then
            { b with player1_reflection := sat16 (b.player1_reflection + 50) }
          else
            { b with player2_reflection := sat16 (b.player2_reflection + 50) }
        .ok (damage_fp, b', { ac with special_cooldown := 4 })
      | .Trickster =>
        match mul_fp_checked damage_fp (FP_SCALE * 2) with
        | .error e => .error e
        | .ok d => .ok (d, b, { ac with special_cooldown := 2 })
  else .ok (damage_fp, b, ac)

/-- src/game.rs lines 603-607: clamp `damage_fp` against
`MAX_TOTAL_MULTIPLIER_FP * FP_SCALE` (an absolute fixed-point damage bound). -/
def clamp_damage (damage_fp : Nat) : Nat :=
  if damage_fp > MAX_TOTAL_MULTIPLIER_FP * FP_SCALE then MAX_TOTAL_MULTIPLIER_FP * FP_SCALE
  else damage_fp

/-- src/game.rs lines 563-617: the damage pipeline from `damage_fp` creation
through the dodge override; returns
(final_damage, self_bps, counter_bps, battle, attacker_character). -/
def compute_damage (is_player1 use_special is_crit : Bool) (base base_u128 dodge_roll : Nat)
    (b : Battle) (ac dc : Character) :
    Except GameError (Nat × Nat × Nat × Battle × Character) :=
  ebind (u128_checked_mul base_u128 FP_SCALE) fun damage_fp0 =>
  ebind (if is_crit then mul_fp_checked damage_fp0 (min 2000000 ac.crit_multiplier_fp)
         else .ok damage_fp0) fun damage_fp1 =>
  ebind (apply_combo base damage_fp1 ac) fun dc1 =>
  ebind (apply_special use_special is_player1 dc1.1 b dc1.2) fun dbc =>
  let b1 := dbc.2.1
  let ac2 := dbc.2.2
  let att_stance := if is_player1 then b1.player1_stance else b1.player2_stance
  let dfn_stance := if is_player1 then b1.player2_stance else b1.player1_stance
  let sm := stance_multipliers att_stance dfn_stance
  ebind (mul_fp_checked dbc.1 sm.1) fun damage_fp4 =>
  ebind (mul_fp_checked damage_fp4 sm.2.1) fun damage_fp5 =>
  let damage_fp6 := clamp_damage damage_fp5
  ebind (fp_to_u64_clamped damage_fp6) fun fd0 =>
  let fd1 := fd0 - dc.defense
  if dodge_roll < dc.dodge_bps then
    let b2 := if is_player1 then
        { b1 with player1_miss_count := sat16 (b1.player1_miss_count + 1) }
      else
        { b1 with player2_miss_count := sat16 (b1.player2_miss_count + 1) }
    .ok (0, sm.2.2.1, sm.2.2.2, b2, ac2)
  else .ok (fd1, sm.2.2.1, sm.2.2.2, b1, ac2)

/-- src/game.rs lines 619-654: apply `final_damage` to the defender's health and
reflection/counter/self-damage (each a percentage of the same `final_damage`)
to the attacker's health, all saturating. -/
def apply_damage_and_effects (is_player1 : Bool)
    (final_damage self_bps counter_bps : Nat) (b : Battle) : Battle :=
  if is_player1 then
    let b1 := { b with player2_health := b.player2_health - final_damage }
    let b2 := if b.player1_reflection > 0 ∧ final_damage > 0 then
        { b1 with player1_health := b1.player1_health - sat64 (final_damage * b.player1_reflection) / 100 }
      else b1
    let b3 := if counter_bps > 0 ∧ final_damage > 0 then
        { b2 with player1_health := b2.player1_health - sat64 (final_damage * counter_bps) / 10000 }
      else b2
    if self_bps > 0 then
      { b3 with player1_health := b3.player1_health - sat64 (final_damage * self_bps) / 10000 }
    else b3
  else
    let b1 := { b with player1_health := b.player1_health - final_damage }
    let b2 := if b.player2_reflection > 0 ∧ final_damage > 0 then
        { b1 with player2_health := b1.player2_health - sat64 (final_damage * b.player2_reflection) / 100 }
      else b1
    let b3 := if counter_bps > 0 ∧ final_damage > 0 then
        { b2 with player2_health := b2.player2_health - sat64 (final_damage * counter_bps) / 10000 }
      else b2
    if self_bps > 0 then
      { b3 with player2_health := b3.player2_health - sat64 (final_damage * self_bps) / 10000 }
    else b3

/-- src/game.rs lines 656-657: end-of-turn cooldown tick. -/
def tick_cooldown (ac : Character) : Character :=
  if ac.special_cooldown > 0 then { ac with special_cooldown := ac.special_cooldown - 1 }
  else ac

/-- src/game.rs lines 659-690: terminal check, winner selection, XP award and
turn advance. Note the code credits `attacker_prog` whenever the winner is
`player1` and `defender_prog` whenever the winner is `player2`, irrespective of
which side the attacker actually is. -/
def award_and_finalize (pool : EntropyPool) (b : Battle) (ac dc : Character)
    (ap dp : Progression) : TurnState :=
  if b.player1_health = 0 ∨ b.player2_health = 0 then
    let winner_opt := if b.player1_health > b.player2_health then some b.player1
      else if b.player2_health > b.player1_health then some b.player2
      else none
    let b' := { b with state := BattleState.Finished, winner := winner_opt }
    match winner_opt with
    | some wpk =>
      if wpk = b.player1 then
        let r := level_up_if_needed { ap with xp := sat64 (ap.xp + 100) } ac
        ⟨pool, b', r.2, dc, r.1, dp⟩
      else
        let r := level_up_if_needed { dp with xp := sat64 (dp.xp + 100) } dc
        ⟨pool, b', ac, r.2, ap, r.1⟩
    | none =>
      ⟨pool, b', ac, dc,
        { ap with xp := sat64 (ap.xp + 25) }, { dp with xp := sat64 (dp.xp + 25) }⟩
  else
    ⟨pool,
      { b with current_turn := if b.current_turn = 1 then 2 else 1
               turn_number := sat64 (b.turn_number + 1) },
      ac, dc, ap, dp⟩

/-- src/game.rs lines 513-694 (`execute_turn`). -/
def execute_turn (hash8 : DrawInput → Nat) (now : Int) (signer : Nat)
    (chosen_stance : StanceType) (use_special : Bool) (s : TurnState) :
    Except GameError TurnState :=
  ebind (turn_checks signer s) fun is_player1 =>
  let b0 := set_stance is_player1 chosen_stance now s.battle
  ebind (drawChecked hash8 signer "base" s.pool b0
      s.attacker_character.base_damage_min s.attacker_character.base_damage_max) fun r1 =>
  let base := r1.1
  ebind (u128_checked_add base (2 * (s.attacker_prog.level - 1))) fun base_u128 =>
  ebind (drawChecked hash8 signer "crit" r1.2.1 r1.2.2 0 9999) fun r2 =>
  let is_crit := r2.1 < s.attacker_character.crit_bps
  ebind (drawChecked hash8 signer "dodge" r2.2.1 r2.2.2 0 9999) fun r3 =>
  let dodge_roll := r3.1
  ebind (drawChecked hash8 signer "wild" r3.2.1 r3.2.2 0 9999) fun r4 =>
  ebind (compute_damage is_player1 use_special is_crit base base_u128 dodge_roll
      r4.2.2 s.attacker_character s.defender_character) fun cd =>
  let final_damage := cd.1
  let self_bps := cd.2.1
  let counter_bps := cd.2.2.1
  let b5 := cd.2.2.2.1
  let ac1 := cd.2.2.2.2
  let b6 := apply_damage_and_effects is_player1 final_damage self_bps counter_bps b5
  let ac2 := tick_cooldown ac1
  .ok (award_and_finalize r4.2.1 b6 ac2 s.defender_character
        s.attacker_prog s.defender_prog)

-- ------------------------
-- Offers / requests / approve_challenger (src/game.rs lines 401-507)
-- ------------------------

structure Offer where
  creator : Nat
  offer_nonce : Nat
  stake_amount : Nat
  start_ts : Int
  inactivity_timeout : Int
  is_active : Bool

structure Request where
  challenger : Nat
  offered_stake : Nat
  status : JoinStatus

structure ApproveResult where
  offer : Offer
  request : Request
  battle : Battle
  pool : EntropyPool

/-- src/game.rs lines 401-507 (`approve_challenger`): battle initialization and
the first-mover entropy draw. Stake escrow movement is external CPI plumbing.
`battle_id` is `offer_nonce.wrapping_add(unix_timestamp as u64)`. -/
def approve_challenger (hash8 : DrawInput → Nat) (now : Int) (creator : Nat)
    (cfg_inactivity_timeout : Int) (offer : Offer) (request : Request)
    (pool : EntropyPool) : Except GameError ApproveResult :=
  if ¬ offer.is_active then .error .OfferNotActive
  else if ¬ request.status = JoinStatus.Pending then .error .InvalidRequestState
  else if ¬ creator = offer.creator then .error .Unauthorized
  else
    let battle0 : Battle :=
      { battle_id := (offer.offer_nonce + (now.emod (U64 : Nat)).toNat) % U64
        player1 := offer.creator
        player2 := request.challenger
        start_ts := offer.start_ts
        current_turn := 0
        turn_number := 0
        player1_health := 100
        player2_health := 100
        state := BattleState.Active
        player1_stance := StanceType.Balanced
        player2_stance := StanceType.Balanced
        created_at := now
        inactivity_timeout := if offer.inactivity_timeout > 0 then offer.inactivity_timeout
          else cfg_inactivity_timeout
        last_action_ts := now
        winner := none
        player1_dot_damage := 0
        player2_dot_damage := 0
        player1_dot_turns := 0
        player2_dot_turns := 0
        player1_reflection := 0
        player2_reflection := 0
        player1_miss_count := 0
        player2_miss_count := 0
        last_entropy_index := 0 }
    let request' := { request with status := JoinStatus.Approved }
    let offer' := { offer with is_active := false }
    if ¬ pool.total_available ≥ 1 then .error .NoEntropyAvailable
    else
      ebind (consume_mixed_u64_return_index hash8 pool creator "first_mover"
          (battle0.turn_number % U32) 0 1) fun r =>
        let choice := r.1.1
        let used_index := r.1.2
        if ¬ used_index > battle0.last_entropy_index then .error .SeedReplay
        else
          .ok { offer := offer'
                request := request'
                battle := { battle0 with
                  last_entropy_index := used_index
                  current_turn := if choice = 0 then 1 else 2 }
                pool := r.2 }

/-- src/game.rs lines 697-710 (`forfeit_by_timeout`). -/
def forfeit_by_timeout (now : Int) (b : Battle) : Except GameError Battle :=
  if ¬ b.state = BattleState.Active then .error .InvalidBattleState
  else if ¬ now - b.last_action_ts > b.inactivity_timeout then .error .TimeoutNotReached
  else
    let winner := if b.current_turn = 1 then b.player2 else b.player1
    .ok { b with state := BattleState.Finished, winner := some winner }

/-- Test driver: a sequence of refills, each made at the pool's current
watermark (`start_index = global_next_index`); entries are (caller, seed, count). -/
def refill_exact_list (p : EntropyPool) :
    List (Nat × Nat × Nat) → Except GameError EntropyPool
  | [] => .ok p
  | e :: rest =>
    match refill_seed_batch p e.1 e.2.1 p.global_next_index e.2.2 with
    | .error err => .error err
    | .ok p' => refill_exact_list p' rest

-- ------------------------
-- Concrete test fixtures (used by witnesses and counterexamples)
-- ------------------------

/-- A concrete digest function for witnesses: every draw hashes to 0, so each
drawn value is the low end of its range. -/
def hashC : DrawInput → Nat := fun _ => 0

def poolE : EntropyPool := create_entropy_pool 7 9

/-- Pool after one authorized refill of 20 entries at start index 1. -/
def poolA : EntropyPool := get_ok (refill_seed_batch poolE 7 1234 1 20) poolE

def progL1 (nft : Nat) : Progression :=
  { nft_mint := nft, xp := 0, level := 1, mmr := 100, last_played := 0 }

def battleC : Battle :=
  { battle_id := 1, player1 := 11, player2 := 22, start_ts := 0
    current_turn := 1, turn_number := 0
    player1_health := 100, player2_health := 100
    state := BattleState.Active
    player1_stance := StanceType.Balanced, player2_stance := StanceType.Balanced
    created_at := 0, inactivity_timeout := 300, last_action_ts := 0
    winner := none
    player1_dot_damage := 0, player2_dot_damage := 0
    player1_dot_turns := 0, player2_dot_turns := 0
    player1_reflection := 0, player2_reflection := 0
    player1_miss_count := 0, player2_miss_count := 0
    last_entropy_index := 0 }

def sC : TurnState :=
  { pool := poolA
    battle := battleC
    attacker_character := create_character_from_nft 77 CharacterClass.Warrior 0
    defender_character := create_character_from_nft 88 CharacterClass.Warrior 0
    attacker_prog := progL1 77
    defender_prog := progL1 88 }

/-- C6 fixture: a heavy hitter owned by player2. -/
def charStrong : Character :=
  { create_character_from_nft 99 CharacterClass.Warrior 0 with
    base_damage_min := 200
    base_damage_max := 200
    crit_bps := 0 }

def charPlain (nft : Nat) : Character :=
  { create_character_from_nft nft CharacterClass.Warrior 0 with crit_bps := 0 }

/-- C6 fixture: player2's turn, player1 at 50 HP, so player2's attack is lethal. -/
def sC6 : TurnState :=
  { pool := poolA
    battle := { battleC with
      current_turn := 2
      player1_health := 50 }
    attacker_character := charStrong
    defender_character := charPlain 88
    attacker_prog := progL1 99
    defender_prog := progL1 88 }

/-- C4 fixture: player1 is a Mage with its special available. -/
def sC4 : TurnState :=
  { sC with attacker_character :=
    { create_character_from_nft 77 CharacterClass.Mage 0 with crit_bps := 0 } }

/-- C4 fixture: a pending 3-turn/5-damage DoT on player2, whose dodge always
triggers, so the turn's direct damage is 0. -/
def sC4b : TurnState :=
  { pool := poolA
    battle := { battleC with
      player2_dot_damage := 5
      player2_dot_turns := 3 }
    attacker_character := charPlain 77
    defender_character := { create_character_from_nft 88 CharacterClass.Warrior 0 with
      crit_bps := 0
      dodge_bps := 10000 }
    attacker_prog := progL1 77
    defender_prog := progL1 88 }

/-- C7 fixture: fixed base roll 10 repeating the recorded last damage (combo),
Warrior special, Berserker vs Aggressive stances: total multiplier
1.15 x 3 x 2.0 x 1.5 = 10.35. -/
def charC7 : Character :=
  { create_character_from_nft 77 CharacterClass.Warrior 0 with
    base_damage_min := 10
    base_damage_max := 10
    crit_bps := 0
    last_damage := 10 }

def sC7 : TurnState :=
  { pool := poolA
    battle := { battleC with
      player2_health := 1000
      player2_stance := StanceType.Aggressive }
    attacker_character := charC7
    defender_character := charPlain 88
    attacker_prog := progL1 77
    defender_prog := progL1 88 }

/-- C8 fixture: a Warrior with its special available. -/
def sC8 : TurnState :=
  { sC with attacker_character := charPlain 77 }

/-- C10 fixture: pool refilled once with `start_index = 0`. -/
def pool0 : EntropyPool := get_ok (refill_seed_batch poolE 7 1234 0 4) poolE

def offerC : Offer :=
  { creator := 11, offer_nonce := 5, stake_amount := 0, start_ts := 0
    inactivity_timeout := 300, is_active := true }

def requestC : Request :=
  { challenger := 22, offered_stake := 0, status := JoinStatus.Pending }


-- ------------------------
-- Pool accounting invariant (spec section 3: total_available equals the live
-- sum of count - consumed across batches) and remaining fixture states
-- ------------------------

def live (b : SeedBatch) : Nat := b.count - b.consumed

def live_sum (p : EntropyPool) : Nat :=
  live (batch_at p 0) + live (batch_at p 1) + live (batch_at p 2) + live (batch_at p 3) +
    live (batch_at p 4) + live (batch_at p 5) + live (batch_at p 6) + live (batch_at p 7)

/-- The pool accounting invariant: `total_available` equals the live sum, every
batch has `consumed ≤ count`, and every `count` fits in a `u32`. -/
def PoolInv (p : EntropyPool) : Prop :=
  p.total_available = live_sum p ∧
  ∀ k, k < 8 → (batch_at p k).consumed ≤ (batch_at p k).count ∧ (batch_at p k).count < U32

instance (p : EntropyPool) : Decidable (PoolInv p) := by
  unfold PoolInv
  infer_instance

/-- The class-specific cooldown value assigned on special use
(src/game.rs lines 588-592). -/
def class_cooldown : CharacterClass → Nat
  | .Warrior => 3
  | .Assassin => 4
  | .Mage => 3
  | .Tank => 4
  | .Trickster => 2

/-- C2 fixture: a full ring — 8 one-entry batches (starts 0..7), none consumed;
exactly the state reached by 8 contiguous one-entry refills of a fresh pool. -/
def pool8C : EntropyPool :=
  { authority := 7
    vrf_oracle := 9
    head := 0
    tail := 0
    total_available := 8
    global_next_index := 8
    batches := fun i => { seed := 0, start := i.val, count := 1, consumed := 0 } }

/-- The battle fields that the damage pipeline itself never writes (it only
touches the dot/reflection/miss accumulators). -/
def battle_core (b : Battle) :
    Nat × Nat × BattleState × Nat × Nat × Nat × Nat × Nat × StanceType × StanceType
      × Option Nat :=
  (b.player1, b.player2, b.state, b.current_turn, b.turn_number,
    b.player1_health, b.player2_health, b.last_entropy_index,
    b.player1_stance, b.player2_stance, b.winner)

/-- C1 fixture: an active battle that has already consumed entropy up to
global index 5. -/
def battleZ : Battle := { battleC with last_entropy_index := 5 }

def approveDflt : ApproveResult :=
  { offer := offerC, request := requestC, battle := battleC, pool := poolA }

-- ------------------------
-- Helper lemmas
-- ------------------------

theorem ebind_ok {α β : Type} {x : Except GameError α} {f : α → Except GameError β}
    {b : β} (h : ebind x f = .ok b) : ∃ a, x = .ok a ∧ f a = .ok b := by
  cases x with
  | error e => simp [ebind] at h
  | ok a => exact ⟨a, rfl, h⟩

theorem ebind_ok_arg {α β : Type} {x : Except GameError α} {f : α → Except GameError β}
    {a : α} (h : x = .ok a) : ebind x f = f a := by
  rw [h]; rfl

/-- Success characterization of `consume_mixed_u64_return_index`. -/
theorem consume_ok {hash8 : DrawInput → Nat} {p : EntropyPool} {signer : Nat}
    {tag : String} {tn lo hi v idx : Nat} {p' : EntropyPool}
    (h : consume_mixed_u64_return_index hash8 p signer tag tn lo hi = .ok ((v, idx), p')) :
    ∃ i, find_live p = some i ∧
      lo ≤ hi ∧ 0 < p.total_available ∧ 0 < (hi - lo + 1) % U64 ∧
      (∃ r, r < (hi - lo + 1) % U64 ∧ v = lo + r) ∧
      idx = sat64 ((p.batches i).start + (p.batches i).consumed) ∧
      p' = { p with
        batches := Function.update p.batches i
          { p.batches i with consumed := min ((p.batches i).consumed + 1) (U32 - 1) }
        total_available := p.total_available - 1
        head := if min ((p.batches i).consumed + 1) (U32 - 1) ≥ (p.batches i).count
          then (p.head + 1) % 8 else p.head } := by
  unfold consume_mixed_u64_return_index at h
  split at h
  · simp at h
  split at h
  · simp at h
  rename_i hge htot
  split at h
  · simp at h
  rename_i i hfl
  dsimp only at h
  split at h
  · simp at h
  rename_i hrange
  refine ⟨i, hfl, by omega, by omega, by omega, ?_⟩
  simp only [Except.ok.injEq, Prod.mk.injEq] at h
  exact ⟨⟨_, Nat.mod_lt _ (by omega), h.1.1.symm⟩, h.1.2.symm, h.2.symm⟩

-- ------------------------
-- C9
-- ------------------------

/-- C9 (confirmed): every successful call to `consume_mixed_u64_return_index`
(which requires `max ≥ min` and `total_available > 0`) returns a value `v` with
`min ≤ v ≤ max` and leaves `total_available` exactly one less than before. -/
theorem c9_consume_range_and_decrement
    (hash8 : DrawInput → Nat) (p : EntropyPool) (signer : Nat) (tag : String)
    (tn lo hi v idx : Nat) (p' : EntropyPool)
    (h : consume_mixed_u64_return_index hash8 p signer tag tn lo hi = .ok ((v, idx), p')) :
    lo ≤ v ∧ v ≤ hi ∧ p'.total_available + 1 = p.total_available := by
  obtain ⟨i, _, hlohi, htot, hrange, ⟨r, hr, hv⟩, _, hp'⟩ := consume_ok h
  have hmodle : (hi - lo + 1) % U64 ≤ hi - lo + 1 := Nat.mod_le _ _
  refine ⟨by omega, by omega, ?_⟩
  rw [hp']
  dsimp only
  omega

/-- Witness for C9 at a concrete input: drawing from `poolA` in range [8, 15]. -/
theorem c9_witness :
    8 ≤ (get_ok (consume_mixed_u64_return_index hashC poolA 3 "t" 0 8 15) ((0, 0), poolA)).1.1 ∧
    (get_ok (consume_mixed_u64_return_index hashC poolA 3 "t" 0 8 15) ((0, 0), poolA)).1.1 ≤ 15 ∧
    (get_ok (consume_mixed_u64_return_index hashC poolA 3 "t" 0 8 15) ((0, 0), poolA)).2.total_available + 1
      = poolA.total_available := by
  have hok : exc_ok (consume_mixed_u64_return_index hashC poolA 3 "t" 0 8 15) = true := by decide
  cases hres : consume_mixed_u64_return_index hashC poolA 3 "t" 0 8 15 with
  | error e => rw [hres] at hok; simp [exc_ok] at hok
  | ok r =>
    exact c9_consume_range_and_decrement hashC poolA 3 "t" 0 8 15 r.1.1 r.1.2 r.2 hres

-- ------------------------
-- C3
-- ------------------------

/-- Success characterization of `refill_seed_batch`. -/
theorem refill_ok {p : EntropyPool} {caller seed start count : Nat} {p' : EntropyPool}
    (h : refill_seed_batch p caller seed start count = .ok p') :
    (caller = p.vrf_oracle ∨ caller = p.authority) ∧ 0 < count ∧
    p.global_next_index ≤ start ∧ start + count < U64 ∧
    p' = { p with
      batches := Function.update p.batches (tail_slot p)
        { seed := seed, start := start, count := count, consumed := 0 }
      tail := (p.tail + 1) % 8
      total_available := sat64 (p.total_available + count)
      global_next_index := start + count } := by
  unfold refill_seed_batch at h
  split at h
  · simp at h
  split at h
  · simp at h
  split at h
  · simp at h
  split at h
  · simp at h
  rename_i h1 h2 h3 h4
  simp only [Except.ok.injEq] at h
  exact ⟨by tauto, by omega, by omega, by omega, h.symm⟩

/-- C3 counterexample: one successful refill whose `start_index` (5) jumps past the
current watermark (0); afterwards `global_next_index = 6`, not
`watermark + count = 1` — so the claimed equality fails for N = 1. -/
theorem c3_counterexample :
    exc_ok (refill_seed_batch poolE 7 99 5 1) = true ∧
    (get_ok (refill_seed_batch poolE 7 99 5 1) poolE).global_next_index ≠
      poolE.global_next_index + 1 := by
  constructor
  · decide
  · decide

/-- C3 (corrected): (a) a successful refill sets `global_next_index` to
`start_index + count`, so after `N` successful refills each made exactly at the
current watermark the watermark equals the initial watermark plus the sum of the
counts; (b) any authorized refill with `count > 0` whose `start_index` is
strictly below the current watermark fails with `SeedReplay` (and, the model
being all-or-nothing, leaves the pool unchanged). -/
theorem c3_refill_watermark :
    (∀ p l p', refill_exact_list p l = .ok p' →
      p'.global_next_index = p.global_next_index + (l.map fun e => e.2.2).sum)
    ∧ (∀ (p : EntropyPool) (caller seed start count : Nat),
      (caller = p.vrf_oracle ∨ caller = p.authority) → 0 < count →
      start < p.global_next_index →
      refill_seed_batch p caller seed start count = .error .SeedReplay) := by
  constructor
  · intro p l
    induction l generalizing p with
    | nil =>
      intro p' h
      simp only [refill_exact_list, Except.ok.injEq] at h
      simp [← h]
    | cons e rest ih =>
      intro p' h
      simp only [refill_exact_list] at h
      split at h
      · simp at h
      rename_i p1 hp1
      have hg1 := (refill_ok hp1).2.2.2.2
      have := ih p1 p' h
      rw [this, hg1]
      simp only [List.map_cons, List.sum_cons]
      ring
  · intro p caller seed start count hauth hcount hlt
    unfold refill_seed_batch
    rw [if_neg (not_not_intro hauth), if_neg (not_not_intro hcount),
      if_pos (by omega)]

/-- Witness for C3: two exact-watermark refills of 4 and 6 entries advance the
watermark from 0 to 10, and a stale refill at start 3 (watermark 10) is rejected
with `SeedReplay`. -/
theorem c3_witness :
    (get_ok (refill_exact_list poolE [(7, 1, 4), (9, 2, 6)]) poolE).global_next_index
        = poolE.global_next_index + 10 ∧
    refill_seed_batch (get_ok (refill_exact_list poolE [(7, 1, 4), (9, 2, 6)]) poolE)
        7 3 3 5 = .error .SeedReplay := by
  constructor
  · have hok : exc_ok (refill_exact_list poolE [(7, 1, 4), (9, 2, 6)]) = true := by decide
    cases hres : refill_exact_list poolE [(7, 1, 4), (9, 2, 6)] with
    | error e => rw [hres] at hok; simp [exc_ok] at hok
    | ok p' =>
      have := c3_refill_watermark.1 poolE [(7, 1, 4), (9, 2, 6)] p' hres
      simpa [get_ok] using this
  · cases hres : refill_exact_list poolE [(7, 1, 4), (9, 2, 6)] with
    | error e =>
      have hok : exc_ok (refill_exact_list poolE [(7, 1, 4), (9, 2, 6)]) = true := by decide
      rw [hres] at hok; simp [exc_ok] at hok
    | ok p' =>
      have hp' : p' = get_ok (refill_exact_list poolE [(7, 1, 4), (9, 2, 6)]) poolE := by
        rw [hres]
        rfl
      refine c3_refill_watermark.2 p' 7 3 3 5 ?_ (by norm_num) ?_
      · right
        rw [hp']
        decide
      · rw [hp']
        decide

-- ------------------------
-- C10
-- ------------------------

/-- When the first live batch found by the head scan has `start = 0` and
`consumed = 0`, a draw in range [0, 1] succeeds and returns global index 0. -/
theorem consume_offset_zero (hash8 : DrawInput → Nat) (pool : EntropyPool)
    (signer : Nat) (tag : String) (tn : Nat) (i : Fin 8)
    (htot : 1 ≤ pool.total_available) (hfl : find_live pool = some i)
    (hstart : (pool.batches i).start = 0) (hcons : (pool.batches i).consumed = 0) :
    ∃ val p', consume_mixed_u64_return_index hash8 pool signer tag tn 0 1 =
      .ok ((val, 0), p') := by
  have hoff : sat64 ((pool.batches i).start + (pool.batches i).consumed) = 0 := by
    rw [hstart, hcons]
    decide
  unfold consume_mixed_u64_return_index
  rw [if_neg (by omega), if_neg (by omega), hfl]
  dsimp only
  rw [if_neg (by norm_num [U64]), hoff]
  exact ⟨_, _, rfl⟩

/-- C10 (confirmed): `approve_challenger` initializes the battle with
`last_entropy_index = 0` and requires its first-mover draw's global index to be
strictly greater than 0, so on a pool whose next unconsumed entry has global
offset 0 (first batch refilled with `start_index = 0`, nothing consumed) it
always fails with `SeedReplay` even though entropy is available. -/
theorem c10_approve_replays_on_offset_zero (hash8 : DrawInput → Nat) (now : Int)
    (creator : Nat) (cfgT : Int) (offer : Offer) (request : Request)
    (pool : EntropyPool) (i : Fin 8)
    (hact : offer.is_active = true) (hpend : request.status = JoinStatus.Pending)
    (hcreator : creator = offer.creator)
    (htot : 1 ≤ pool.total_available) (hfl : find_live pool = some i)
    (hstart : (pool.batches i).start = 0) (hcons : (pool.batches i).consumed = 0) :
    approve_challenger hash8 now creator cfgT offer request pool =
      .error .SeedReplay := by
  obtain ⟨val, p', hc⟩ :=
    consume_offset_zero hash8 pool creator "first_mover" (0 % U32) i htot hfl hstart hcons
  unfold approve_challenger
  rw [if_neg (not_not_intro hact), if_neg (not_not_intro hpend),
    if_neg (not_not_intro hcreator)]
  dsimp only
  rw [if_neg (not_not_intro htot), ebind_ok_arg hc]
  dsimp only
  rw [if_pos (by omega)]

/-- Witness for C10: a fresh pool refilled with 4 entries at `start_index = 0`;
approving a pending challenger fails with `SeedReplay`. -/
theorem c10_witness :
    approve_challenger hashC 50 11 300 offerC requestC pool0 = .error .SeedReplay := by
  refine c10_approve_replays_on_offset_zero hashC 50 11 300 offerC requestC pool0
    ⟨0, by norm_num⟩ (by decide) (by decide) (by decide) (by decide) (by decide)
    (by decide) (by decide)

-- ------------------------
-- C2
-- ------------------------

theorem batch_at_fin (p : EntropyPool) (i : Fin 8) : batch_at p i.val = p.batches i := by
  unfold batch_at
  congr 1
  exact Fin.ext (Nat.mod_eq_of_lt i.isLt)

theorem find_live_lt {p : EntropyPool} {i : Fin 8} (h : find_live p = some i) :
    (p.batches i).consumed < (p.batches i).count := by
  unfold find_live at h
  cases hf : (List.range 8).find? (fun k =>
      decide ((batch_at p (p.head % 8 + k)).consumed < (batch_at p (p.head % 8 + k)).count)) with
  | none => rw [hf] at h; simp at h
  | some k =>
    rw [hf] at h
    simp only [Option.map_some', Option.some.injEq] at h
    have hp := List.find?_some hf
    simp only [decide_eq_true_eq] at hp
    rw [← h]
    simpa [batch_at] using hp

/-- C2 counterexample: `pool8C` satisfies the invariant; a 9th refill (authorized,
fresh `start_index = 8`, `count = 1`) succeeds even though the tail slot's batch
still has its entry unconsumed, and afterwards `total_available = 9` while the
live sum is still 8 — the invariant is not preserved by every pool operation. -/
theorem c2_counterexample :
    PoolInv pool8C ∧
    exc_ok (refill_seed_batch pool8C 7 0 8 1) = true ∧
    ¬ PoolInv (get_ok (refill_seed_batch pool8C 7 0 8 1) pool8C) := by
  refine ⟨by decide, by decide, by decide⟩

theorem live_sum_update {p q : EntropyPool} {i : Fin 8} {nb : SeedBatch}
    (hq : q.batches = Function.update p.batches i nb) :
    live_sum q + live (p.batches i) = live_sum p + live nb := by
  rcases i with ⟨iv, hiv⟩
  interval_cases iv <;>
    simp only [live_sum, batch_at, hq, Function.update_apply] <;>
    norm_num [Fin.ext_iff] <;>
    omega

theorem batch_at_update {p q : EntropyPool} {i : Fin 8} {nb : SeedBatch}
    (hq : q.batches = Function.update p.batches i nb) (k : Nat) :
    batch_at q k = nb ∨ batch_at q k = batch_at p k := by
  unfold batch_at
  rw [hq, Function.update_apply]
  split
  · exact Or.inl rfl
  · exact Or.inr rfl

/-- C2 (corrected): the identity `total_available = sum of (count - consumed)`
is preserved by every successful consume, and by a refill whose tail slot's
prior batch is fully consumed; but `refill_seed_batch` itself never checks the
tail slot, and a refill overwriting a slot with unconsumed entries breaks the
identity (see the counterexample). -/
theorem c2_pool_invariant_preservation :
    (∀ (hash8 : DrawInput → Nat) (p : EntropyPool) (signer : Nat) (tag : String)
      (tn lo hi v idx : Nat) (p' : EntropyPool), PoolInv p →
      consume_mixed_u64_return_index hash8 p signer tag tn lo hi = .ok ((v, idx), p') →
      PoolInv p')
    ∧ (∀ (p : EntropyPool) (caller seed start count : Nat) (p' : EntropyPool),
      PoolInv p → count < U32 →
      (p.batches (tail_slot p)).consumed = (p.batches (tail_slot p)).count →
      refill_seed_batch p caller seed start count = .ok p' → PoolInv p') := by
  have h32 : U32 = 4294967296 := rfl
  have h64 : U64 = 18446744073709551616 := rfl
  constructor
  · intro hash8 p signer tag tn lo hi v idx p' hinv h
    obtain ⟨i, hfl, _, htot, _, _, _, hp'⟩ := consume_ok h
    have hlt := find_live_lt hfl
    obtain ⟨hsum, hbounds⟩ := hinv
    have hib := hbounds i.val i.isLt
    rw [batch_at_fin] at hib
    have hmin : min ((p.batches i).consumed + 1) (U32 - 1) = (p.batches i).consumed + 1 :=
      Nat.min_eq_left (by omega)
    rw [hmin] at hp'
    have hq : p'.batches = Function.update p.batches i
        { p.batches i with consumed := (p.batches i).consumed + 1 } := by
      rw [hp']
    have hls := live_sum_update hq
    have htot' : p'.total_available = p.total_available - 1 := by rw [hp']
    have hlivenb : live { p.batches i with consumed := (p.batches i).consumed + 1 }
        = (p.batches i).count - ((p.batches i).consumed + 1) := rfl
    have hlivei : live (p.batches i) = (p.batches i).count - (p.batches i).consumed := rfl
    clear hmin hp' h hfl
    constructor
    · omega
    · intro k hk
      rcases batch_at_update hq k with hbk | hbk
      · rw [hbk]
        dsimp only
        omega
      · rw [hbk]
        exact hbounds k hk
  · intro p caller seed start count p' hinv hcount hfull h
    obtain ⟨_, _, _, _, hp'⟩ := refill_ok h
    obtain ⟨hsum, hbounds⟩ := hinv
    have hit := hbounds (tail_slot p).val (tail_slot p).isLt
    rw [batch_at_fin] at hit
    have hq : p'.batches = Function.update p.batches (tail_slot p)
        { seed := seed, start := start, count := count, consumed := 0 } := by
      rw [hp']
    have hls := live_sum_update hq
    have hlivenb : live { seed := seed, start := start, count := count, consumed := 0 }
        = count := by simp [live]
    have hlivei : live (p.batches (tail_slot p)) = 0 := by
      simp [live, hfull]
    have hbound : live_sum p ≤ 8 * (U32 - 1) := by
      have b0 := hbounds 0 (by norm_num)
      have b1 := hbounds 1 (by norm_num)
      have b2 := hbounds 2 (by norm_num)
      have b3 := hbounds 3 (by norm_num)
      have b4 := hbounds 4 (by norm_num)
      have b5 := hbounds 5 (by norm_num)
      have b6 := hbounds 6 (by norm_num)
      have b7 := hbounds 7 (by norm_num)
      unfold live_sum live
      omega
    have htot' : p'.total_available = sat64 (p.total_available + count) := by rw [hp']
    have hsat : sat64 (p.total_available + count) = p.total_available + count := by
      unfold sat64
      exact Nat.min_eq_left (by omega)
    clear h hp'
    constructor
    · omega
    · intro k hk
      rcases batch_at_update hq k with hbk | hbk
      · rw [hbk]
        dsimp only
        omega
      · rw [hbk]
        exact hbounds k hk

/-- Witness for C2: a concrete consume from `poolA` and a concrete refill of
`poolA` (whose tail slot holds the fully-consumed default batch) both preserve
the invariant. -/
theorem c2_witness :
    PoolInv (get_ok (consume_mixed_u64_return_index hashC poolA 3 "w" 0 0 9) ((0, 0), poolA)).2 ∧
    PoolInv (get_ok (refill_seed_batch poolA 9 5 21 6) poolA) := by
  constructor
  · have hok : exc_ok (consume_mixed_u64_return_index hashC poolA 3 "w" 0 0 9) = true := by
      decide
    cases hres : consume_mixed_u64_return_index hashC poolA 3 "w" 0 0 9 with
    | error e => rw [hres] at hok; simp [exc_ok] at hok
    | ok r =>
      exact c2_pool_invariant_preservation.1 hashC poolA 3 "w" 0 0 9 r.1.1 r.1.2 r.2
        (by decide) hres
  · cases hres : refill_seed_batch poolA 9 5 21 6 with
    | error e =>
      have hok : exc_ok (refill_seed_batch poolA 9 5 21 6) = true := by decide
      rw [hres] at hok
      simp [exc_ok] at hok
    | ok p' =>
      exact c2_pool_invariant_preservation.2 poolA 9 5 21 6 p' (by decide) (by decide)
        (by decide) hres

-- ------------------------
-- Stage lemmas for the battle engine
-- ------------------------

theorem drawChecked_ok {hash8 : DrawInput → Nat} {signer : Nat} {tag : String}
    {p : EntropyPool} {b : Battle} {lo hi v : Nat} {p2 : EntropyPool} {b2 : Battle}
    (h : drawChecked hash8 signer tag p b lo hi = .ok (v, p2, b2)) :
    b.last_entropy_index < b2.last_entropy_index ∧
    b2 = { b with last_entropy_index := b2.last_entropy_index } := by
  unfold drawChecked at h
  split at h
  · simp at h
  rename_i r hcons
  split at h
  · rename_i hgt
    simp only [Except.ok.injEq, Prod.mk.injEq] at h
    obtain ⟨-, -, hb2⟩ := h
    subst hb2
    exact ⟨hgt, rfl⟩
  · simp at h

theorem apply_combo_ok {base fp : Nat} {ac : Character} {d : Nat} {ac' : Character}
    (h : apply_combo base fp ac = .ok (d, ac')) :
    ac'.crit_multiplier_fp = ac.crit_multiplier_fp ∧
    ac'.special_cooldown = ac.special_cooldown ∧
    ac'.base_class = ac.base_class := by
  unfold apply_combo at h
  split at h
  · dsimp only at h
    split at h
    · simp at h
    · simp only [Except.ok.injEq, Prod.mk.injEq] at h
      obtain ⟨-, hac⟩ := h
      subst hac
      exact ⟨rfl, rfl, rfl⟩
  · simp only [Except.ok.injEq, Prod.mk.injEq] at h
    obtain ⟨-, hac⟩ := h
    subst hac
    exact ⟨rfl, rfl, rfl⟩

theorem mul_fp_checked_zero (m : Nat) : mul_fp_checked 0 m = .ok 0 := by
  unfold mul_fp_checked
  norm_num [U128]

theorem apply_combo_zero {base : Nat} {ac : Character} {d : Nat} {ac' : Character}
    (h : apply_combo base 0 ac = .ok (d, ac')) : d = 0 := by
  unfold apply_combo at h
  split at h
  · dsimp only at h
    rw [mul_fp_checked_zero] at h
    dsimp only at h
    simp only [Except.ok.injEq, Prod.mk.injEq] at h
    omega
  · simp only [Except.ok.injEq, Prod.mk.injEq] at h
    omega

theorem apply_special_ok {us ip : Bool} {fp : Nat} {b : Battle} {ac : Character}
    {d : Nat} {b' : Battle} {ac' : Character}
    (h : apply_special us ip fp b ac = .ok (d, b', ac')) :
    battle_core b' = battle_core b ∧
    ac'.crit_multiplier_fp = ac.crit_multiplier_fp ∧
    ac'.base_class = ac.base_class ∧
    (us = true → ac.special_cooldown = 0 ∧
      ac'.special_cooldown = class_cooldown ac.base_class) ∧
    (us = false → d = fp ∧ b' = b ∧ ac' = ac) ∧
    ((b'.player1_dot_damage = b.player1_dot_damage ∧
        b'.player1_dot_turns = b.player1_dot_turns) ∨
      (b'.player1_dot_damage = sat64 (b.player1_dot_damage + 5) ∧
        b'.player1_dot_turns = sat8 (b.player1_dot_turns + 3))) ∧
    ((b'.player2_dot_damage = b.player2_dot_damage ∧
        b'.player2_dot_turns = b.player2_dot_turns) ∨
      (b'.player2_dot_damage = sat64 (b.player2_dot_damage + 5) ∧
        b'.player2_dot_turns = sat8 (b.player2_dot_turns + 3))) ∧
    (us = true → ip = true → ac.base_class = CharacterClass.Mage →
      b'.player2_dot_damage = sat64 (b.player2_dot_damage + 5) ∧
      b'.player2_dot_turns = sat8 (b.player2_dot_turns + 3) ∧
      b'.player1_dot_damage = b.player1_dot_damage ∧
      b'.player1_dot_turns = b.player1_dot_turns) := by
  unfold apply_special at h
  cases us with
  | false =>
    simp only [Bool.false_eq_true, if_false] at h
    simp only [Except.ok.injEq, Prod.mk.injEq] at h
    obtain ⟨hd, hb, hac⟩ := h
    subst hb
    subst hac
    refine ⟨rfl, rfl, rfl, by simp, fun _ => ⟨hd.symm, rfl, rfl⟩, Or.inl ⟨rfl, rfl⟩,
      Or.inl ⟨rfl, rfl⟩, by simp⟩
  | true =>
    simp only [if_true] at h
    split at h
    · simp at h
    rename_i hcd
    rw [not_not] at hcd
    cases hclass : ac.base_class <;> rw [hclass] at h <;> dsimp only at h
    case Warrior =>
      split at h
      · simp at h
      simp only [Except.ok.injEq, Prod.mk.injEq] at h
      obtain ⟨hd, hb, hac⟩ := h
      subst hb
      subst hac
      exact ⟨rfl, rfl, rfl, fun _ => ⟨hcd, rfl⟩, by simp,
        Or.inl ⟨rfl, rfl⟩, Or.inl ⟨rfl, rfl⟩, by simp⟩
    case Assassin =>
      split at h
      · simp at h
      simp only [Except.ok.injEq, Prod.mk.injEq] at h
      obtain ⟨hd, hb, hac⟩ := h
      subst hb
      subst hac
      exact ⟨rfl, rfl, rfl, fun _ => ⟨hcd, rfl⟩, by simp,
        Or.inl ⟨rfl, rfl⟩, Or.inl ⟨rfl, rfl⟩, by simp⟩
    case Mage =>
      cases ip with
      | true =>
        simp only [if_true] at h
        simp only [Except.ok.injEq, Prod.mk.injEq] at h
        obtain ⟨hd, hb, hac⟩ := h
        subst hb
        subst hac
        exact ⟨rfl, rfl, rfl, fun _ => ⟨hcd, rfl⟩, by simp,
          Or.inl ⟨rfl, rfl⟩, Or.inr ⟨rfl, rfl⟩, fun _ _ _ => ⟨rfl, rfl, rfl, rfl⟩⟩
      | false =>
        simp only [Bool.false_eq_true, if_false] at h
        simp only [Except.ok.injEq, Prod.mk.injEq] at h
        obtain ⟨hd, hb, hac⟩ := h
        subst hb
        subst hac
        exact ⟨rfl, rfl, rfl, fun _ => ⟨hcd, rfl⟩, by simp,
          Or.inr ⟨rfl, rfl⟩, Or.inl ⟨rfl, rfl⟩, by simp⟩
    case Tank =>
      cases ip with
      | true =>
        simp only [if_true] at h
        simp only [Except.ok.injEq, Prod.mk.injEq] at h
        obtain ⟨hd, hb, hac⟩ := h
        subst hb
        subst hac
        exact ⟨rfl, rfl, rfl, fun _ => ⟨hcd, rfl⟩, by simp,
          Or.inl ⟨rfl, rfl⟩, Or.inl ⟨rfl, rfl⟩, by simp⟩
      | false =>
        simp only [Bool.false_eq_true, if_false] at h
        simp only [Except.ok.injEq, Prod.mk.injEq] at h
        obtain ⟨hd, hb, hac⟩ := h
        subst hb
        subst hac
        exact ⟨rfl, rfl, rfl, fun _ => ⟨hcd, rfl⟩, by simp,
          Or.inl ⟨rfl, rfl⟩, Or.inl ⟨rfl, rfl⟩, by simp⟩
    case Trickster =>
      split at h
      · simp at h
      simp only [Except.ok.injEq, Prod.mk.injEq] at h
      obtain ⟨hd, hb, hac⟩ := h
      subst hb
      subst hac
      exact ⟨rfl, rfl, rfl, fun _ => ⟨hcd, rfl⟩, by simp,
        Or.inl ⟨rfl, rfl⟩, Or.inl ⟨rfl, rfl⟩, by simp⟩

theorem fd0_le {x y : Nat} (h : fp_to_u64_clamped (clamp_damage x) = .ok y) :
    y ≤ MAX_TOTAL_MULTIPLIER_FP := by
  unfold fp_to_u64_clamped at h
  split at h
  · simp at h
  simp only [Except.ok.injEq] at h
  subst h
  have hc : clamp_damage x ≤ 10000000000000 := by
    unfold clamp_damage
    split
    · norm_num [MAX_TOTAL_MULTIPLIER_FP, FP_SCALE]
    · rename_i hx
      simp only [gt_iff_lt, not_lt] at hx
      calc x ≤ MAX_TOTAL_MULTIPLIER_FP * FP_SCALE := hx
        _ = 10000000000000 := by norm_num [MAX_TOTAL_MULTIPLIER_FP, FP_SCALE]
  calc clamp_damage x / FP_SCALE ≤ 10000000000000 / FP_SCALE := Nat.div_le_div_right hc
    _ = MAX_TOTAL_MULTIPLIER_FP := by norm_num [FP_SCALE, MAX_TOTAL_MULTIPLIER_FP]

theorem compute_damage_ok {ip us ic : Bool} {base bu dr : Nat} {b : Battle}
    {ac dc : Character} {fd sb cb : Nat} {b' : Battle} {ac' : Character}
    (h : compute_damage ip us ic base bu dr b ac dc = .ok (fd, sb, cb, b', ac')) :
    battle_core b' = battle_core b ∧
    ac'.crit_multiplier_fp = ac.crit_multiplier_fp ∧
    ac'.base_class = ac.base_class ∧
    (us = true → ac.special_cooldown = 0 ∧
      ac'.special_cooldown = class_cooldown ac.base_class) ∧
    (us = false → ac'.special_cooldown = ac.special_cooldown) ∧
    fd ≤ MAX_TOTAL_MULTIPLIER_FP ∧
    ((b'.player1_dot_damage = b.player1_dot_damage ∧
        b'.player1_dot_turns = b.player1_dot_turns) ∨
      (b'.player1_dot_damage = sat64 (b.player1_dot_damage + 5) ∧
        b'.player1_dot_turns = sat8 (b.player1_dot_turns + 3))) ∧
    ((b'.player2_dot_damage = b.player2_dot_damage ∧
        b'.player2_dot_turns = b.player2_dot_turns) ∨
      (b'.player2_dot_damage = sat64 (b.player2_dot_damage + 5) ∧
        b'.player2_dot_turns = sat8 (b.player2_dot_turns + 3))) ∧
    (us = true → ip = true → ac.base_class = CharacterClass.Mage →
      b'.player2_dot_damage = sat64 (b.player2_dot_damage + 5) ∧
      b'.player2_dot_turns = sat8 (b.player2_dot_turns + 3) ∧
      b'.player1_dot_damage = b.player1_dot_damage ∧
      b'.player1_dot_turns = b.player1_dot_turns) := by
  unfold compute_damage at h
  obtain ⟨fp0, hA, h⟩ := ebind_ok h
  obtain ⟨fp1, hB, h⟩ := ebind_ok h
  obtain ⟨dc1, hC, h⟩ := ebind_ok h
  obtain ⟨fp2, ac1⟩ := dc1
  obtain ⟨dbc, hD, h⟩ := ebind_ok h
  obtain ⟨fp3, b1, ac2⟩ := dbc
  dsimp only at h hD
  obtain ⟨fp4, hE, h⟩ := ebind_ok h
  obtain ⟨fp5, hF, h⟩ := ebind_ok h
  obtain ⟨fd0, hG, h⟩ := ebind_ok h
  have hcombo := apply_combo_ok hC
  have hspec := apply_special_ok hD
  obtain ⟨hcore, hcrit2, hclass2, hcool2, hnofree, hdots1, hdots2, hmage⟩ := hspec
  have hfd0 := fd0_le hG
  split at h <;>
    simp only [Except.ok.injEq, Prod.mk.injEq] at h <;>
    obtain ⟨hfd, hsb, hcb, hb', hac'⟩ := h <;>
    subst hb' <;>
    subst hac'
  · cases ip <;>
      exact ⟨hcore, hcrit2.trans hcombo.1, hclass2.trans hcombo.2.2,
        fun hu => ⟨hcombo.2.1 ▸ (hcool2 hu).1, hcombo.2.2 ▸ (hcool2 hu).2⟩,
        fun hu => (congrArg Character.special_cooldown (hnofree hu).2.2).trans hcombo.2.1,
        by omega, hdots1, hdots2, fun hu hip hm => hmage hu hip (hcombo.2.2.trans hm)⟩
  · exact ⟨hcore, hcrit2.trans hcombo.1, hclass2.trans hcombo.2.2,
      fun hu => ⟨hcombo.2.1 ▸ (hcool2 hu).1, hcombo.2.2 ▸ (hcool2 hu).2⟩,
      fun hu => (congrArg Character.special_cooldown (hnofree hu).2.2).trans hcombo.2.1,
      by omega, hdots1, hdots2, fun hu hip hm => hmage hu hip (hcombo.2.2.trans hm)⟩

theorem battle_core_eq {x y : Battle} (h : battle_core x = battle_core y) :
    x.player1 = y.player1 ∧ x.player2 = y.player2 ∧ x.state = y.state ∧
    x.current_turn = y.current_turn ∧ x.turn_number = y.turn_number ∧
    x.player1_health = y.player1_health ∧ x.player2_health = y.player2_health ∧
    x.last_entropy_index = y.last_entropy_index ∧
    x.player1_stance = y.player1_stance ∧ x.player2_stance = y.player2_stance ∧
    x.winner = y.winner := by
  unfold battle_core at h
  simp only [Prod.mk.injEq] at h
  tauto

theorem apply_damage_fields (ip : Bool) (fd sb cb : Nat) (b : Battle) :
    (apply_damage_and_effects ip fd sb cb b).last_entropy_index = b.last_entropy_index ∧
    (apply_damage_and_effects ip fd sb cb b).state = b.state ∧
    (apply_damage_and_effects ip fd sb cb b).player1 = b.player1 ∧
    (apply_damage_and_effects ip fd sb cb b).player2 = b.player2 ∧
    (apply_damage_and_effects ip fd sb cb b).current_turn = b.current_turn ∧
    (apply_damage_and_effects ip fd sb cb b).turn_number = b.turn_number ∧
    (apply_damage_and_effects ip fd sb cb b).player1_dot_damage = b.player1_dot_damage ∧
    (apply_damage_and_effects ip fd sb cb b).player1_dot_turns = b.player1_dot_turns ∧
    (apply_damage_and_effects ip fd sb cb b).player2_dot_damage = b.player2_dot_damage ∧
    (apply_damage_and_effects ip fd sb cb b).player2_dot_turns = b.player2_dot_turns ∧
    (ip = true → (apply_damage_and_effects ip fd sb cb b).player2_health
      = b.player2_health - fd) ∧
    (ip = false → (apply_damage_and_effects ip fd sb cb b).player1_health
      = b.player1_health - fd) := by
  unfold apply_damage_and_effects
  cases ip <;> dsimp only <;> (repeat' split) <;> simp_all

theorem apply_damage_zero (ip : Bool) (sb cb : Nat) (b : Battle) :
    (apply_damage_and_effects ip 0 sb cb b).player1_health = b.player1_health ∧
    (apply_damage_and_effects ip 0 sb cb b).player2_health = b.player2_health := by
  unfold apply_damage_and_effects
  have hz : ∀ m : Nat, sat64 (0 * m) / 10000 = 0 := by
    intro m
    simp [sat64]
  cases ip <;> dsimp only <;> (repeat' split) <;> simp_all [sat64]

theorem tick_cooldown_fields (ac : Character) :
    (tick_cooldown ac).special_cooldown = ac.special_cooldown - 1 ∨
      ((tick_cooldown ac).special_cooldown = 0 ∧ ac.special_cooldown = 0) := by
  unfold tick_cooldown
  split
  · exact Or.inl rfl
  · rename_i hc
    simp only [gt_iff_lt, not_lt, Nat.le_zero] at hc
    exact Or.inr ⟨hc, hc⟩

theorem tick_cooldown_pres (ac : Character) :
    (tick_cooldown ac).crit_multiplier_fp = ac.crit_multiplier_fp ∧
    (tick_cooldown ac).base_class = ac.base_class := by
  unfold tick_cooldown
  split <;> exact ⟨rfl, rfl⟩

theorem level_up_go_pres (fuel : Nat) : ∀ (pr : Progression) (c : Character),
    (level_up_go fuel pr c).2.crit_multiplier_fp = c.crit_multiplier_fp ∧
    (level_up_go fuel pr c).2.special_cooldown = c.special_cooldown ∧
    (level_up_go fuel pr c).2.base_class = c.base_class := by
  induction fuel with
  | zero => intro pr c; exact ⟨rfl, rfl, rfl⟩
  | succ n ih =>
    intro pr c
    unfold level_up_go
    dsimp only
    split
    · exact ih _ _
    · exact ⟨rfl, rfl, rfl⟩

theorem level_up_crit (pr : Progression) (c : Character) :
    (level_up_if_needed pr c).2.crit_multiplier_fp = c.crit_multiplier_fp :=
  (level_up_go_pres _ pr c).1

theorem level_up_cool (pr : Progression) (c : Character) :
    (level_up_if_needed pr c).2.special_cooldown = c.special_cooldown :=
  (level_up_go_pres _ pr c).2.1

theorem level_up_class (pr : Progression) (c : Character) :
    (level_up_if_needed pr c).2.base_class = c.base_class :=
  (level_up_go_pres _ pr c).2.2

theorem award_fields (pool : EntropyPool) (b : Battle) (ac dc : Character)
    (ap dp : Progression) :
    (award_and_finalize pool b ac dc ap dp).battle.last_entropy_index
      = b.last_entropy_index ∧
    (award_and_finalize pool b ac dc ap dp).battle.player1_health = b.player1_health ∧
    (award_and_finalize pool b ac dc ap dp).battle.player2_health = b.player2_health ∧
    (award_and_finalize pool b ac dc ap dp).battle.player1_dot_damage
      = b.player1_dot_damage ∧
    (award_and_finalize pool b ac dc ap dp).battle.player1_dot_turns
      = b.player1_dot_turns ∧
    (award_and_finalize pool b ac dc ap dp).battle.player2_dot_damage
      = b.player2_dot_damage ∧
    (award_and_finalize pool b ac dc ap dp).battle.player2_dot_turns
      = b.player2_dot_turns ∧
    (award_and_finalize pool b ac dc ap dp).attacker_character.special_cooldown
      = ac.special_cooldown ∧
    (award_and_finalize pool b ac dc ap dp).attacker_character.crit_multiplier_fp
      = ac.crit_multiplier_fp ∧
    (award_and_finalize pool b ac dc ap dp).defender_character.crit_multiplier_fp
      = dc.crit_multiplier_fp := by
  unfold award_and_finalize
  (repeat' split) <;>
    simp [apply_ite, level_up_crit, level_up_cool, ite_self]

theorem turn_checks_ok {signer : Nat} {s : TurnState} {ip : Bool}
    (h : turn_checks signer s = .ok ip) :
    s.battle.state = BattleState.Active ∧ (ip = true ↔ signer = s.battle.player1) := by
  unfold turn_checks at h
  split at h
  · simp at h
  rename_i hstate
  obtain ⟨ip0, hip, h⟩ := ebind_ok h
  have hiff0 : ip0 = true ↔ signer = s.battle.player1 := by
    split at hip
    · rename_i hp1
      simp only [Except.ok.injEq] at hip
      simp [← hip, hp1]
    · rename_i hp1
      split at hip
      · simp only [Except.ok.injEq] at hip
        simp [← hip, hp1]
      · simp at hip
  by_cases hcur : s.battle.current_turn = (if ip0 = true then 1 else 2)
  · rw [if_neg (not_not_intro hcur)] at h
    split at h
    · simp at h
    simp only [Except.ok.injEq] at h
    subst h
    exact ⟨not_not.mp hstate, hiff0⟩
  · rw [if_pos hcur] at h
    simp at h

theorem draw_battle_fields {hash8 : DrawInput → Nat} {signer : Nat} {tag : String}
    {p : EntropyPool} {b : Battle} {lo hi v : Nat} {p2 : EntropyPool} {b2 : Battle}
    (h : drawChecked hash8 signer tag p b lo hi = .ok (v, p2, b2)) :
    b.last_entropy_index < b2.last_entropy_index ∧
    b2.player1_health = b.player1_health ∧ b2.player2_health = b.player2_health ∧
    b2.player1_dot_damage = b.player1_dot_damage ∧
    b2.player1_dot_turns = b.player1_dot_turns ∧
    b2.player2_dot_damage = b.player2_dot_damage ∧
    b2.player2_dot_turns = b.player2_dot_turns := by
  obtain ⟨hlt, hb⟩ := drawChecked_ok h
  rw [hb]
  exact ⟨hlt, rfl, rfl, rfl, rfl, rfl, rfl⟩

theorem class_cooldown_pos (c : CharacterClass) : 0 < class_cooldown c := by
  cases c <;> norm_num [class_cooldown]

theorem execute_turn_ok {hash8 : DrawInput → Nat} {now : Int} {signer : Nat}
    {st : StanceType} {us : Bool} {s s' : TurnState}
    (h : execute_turn hash8 now signer st us s = .ok s') :
    s.battle.last_entropy_index < s'.battle.last_entropy_index ∧
    (us = true → s.attacker_character.special_cooldown = 0 ∧
      s'.attacker_character.special_cooldown
        = class_cooldown s.attacker_character.base_class - 1) ∧
    (signer = s.battle.player1 →
      s.battle.player2_health - s'.battle.player2_health ≤ MAX_TOTAL_MULTIPLIER_FP) ∧
    (us = true → signer = s.battle.player1 →
      s.attacker_character.base_class = CharacterClass.Mage →
      s'.battle.player2_dot_damage = sat64 (s.battle.player2_dot_damage + 5) ∧
      s'.battle.player2_dot_turns = sat8 (s.battle.player2_dot_turns + 3) ∧
      s'.battle.player1_dot_damage = s.battle.player1_dot_damage ∧
      s'.battle.player1_dot_turns = s.battle.player1_dot_turns) ∧
    ((s'.battle.player1_dot_damage = s.battle.player1_dot_damage ∧
        s'.battle.player1_dot_turns = s.battle.player1_dot_turns) ∨
      (s'.battle.player1_dot_damage = sat64 (s.battle.player1_dot_damage + 5) ∧
        s'.battle.player1_dot_turns = sat8 (s.battle.player1_dot_turns + 3))) ∧
    ((s'.battle.player2_dot_damage = s.battle.player2_dot_damage ∧
        s'.battle.player2_dot_turns = s.battle.player2_dot_turns) ∨
      (s'.battle.player2_dot_damage = sat64 (s.battle.player2_dot_damage + 5) ∧
        s'.battle.player2_dot_turns = sat8 (s.battle.player2_dot_turns + 3))) ∧
    s'.attacker_character.crit_multiplier_fp
      = s.attacker_character.crit_multiplier_fp ∧
    s'.defender_character.crit_multiplier_fp
      = s.defender_character.crit_multiplier_fp := by
  unfold execute_turn at h
  obtain ⟨ip, hchk, h⟩ := ebind_ok h
  dsimp only at h
  obtain ⟨r1, h1, h⟩ := ebind_ok h
  obtain ⟨base, p1, b1⟩ := r1
  dsimp only at h h1
  obtain ⟨bu, hbu, h⟩ := ebind_ok h
  obtain ⟨r2, h2, h⟩ := ebind_ok h
  obtain ⟨crit, p2, b2⟩ := r2
  dsimp only at h h2
  obtain ⟨r3, h3, h⟩ := ebind_ok h
  obtain ⟨dr, p3, b3⟩ := r3
  dsimp only at h h3
  obtain ⟨r4, h4, h⟩ := ebind_ok h
  obtain ⟨wild, p4, b4⟩ := r4
  dsimp only at h h4
  obtain ⟨cd, hcd, h⟩ := ebind_ok h
  obtain ⟨fd, sb, cb, b5, ac1⟩ := cd
  dsimp only at h hcd
  simp only [Except.ok.injEq] at h
  subst h
  have htc := turn_checks_ok hchk
  have hf1 := draw_battle_fields h1
  have hf2 := draw_battle_fields h2
  have hf3 := draw_battle_fields h3
  have hf4 := draw_battle_fields h4
  obtain ⟨hcore, hcrit1, hclass1, hcool, hcoolf, hfdle, hdots1, hdots2, hmage⟩ :=
    compute_damage_ok hcd
  obtain ⟨-, -, -, -, -, hp1h5, hp2h5, -, -, -, -⟩ := battle_core_eq hcore
  have hadf := apply_damage_fields ip fd sb cb b5
  have haw := award_fields p4 (apply_damage_and_effects ip fd sb cb b5)
    (tick_cooldown ac1) s.defender_character s.attacker_prog s.defender_prog
  have htick := tick_cooldown_fields ac1
  have htickp := tick_cooldown_pres ac1
  -- base-stance battle: all fields below are definitionally those of s.battle
  have hl0 : (set_stance ip st now s.battle).last_entropy_index
      = s.battle.last_entropy_index := rfl
  have hs1 : (set_stance ip st now s.battle).player1_health
      = s.battle.player1_health := rfl
  have hs2 : (set_stance ip st now s.battle).player2_health
      = s.battle.player2_health := rfl
  have hs3 : (set_stance ip st now s.battle).player1_dot_damage
      = s.battle.player1_dot_damage := rfl
  have hs4 : (set_stance ip st now s.battle).player1_dot_turns
      = s.battle.player1_dot_turns := rfl
  have hs5 : (set_stance ip st now s.battle).player2_dot_damage
      = s.battle.player2_dot_damage := rfl
  have hs6 : (set_stance ip st now s.battle).player2_dot_turns
      = s.battle.player2_dot_turns := rfl
  refine ⟨?_, ?_, ?_, ?_, ?_, ?_, ?_, ?_⟩
  · -- strict growth of last_entropy_index
    have h5 : b5.last_entropy_index = b4.last_entropy_index :=
      (battle_core_eq hcore).2.2.2.2.2.2.2.1
    have h6 := hadf.1
    have h7 := haw.1
    omega
  · -- cooldown: set on special use, then ticked down once
    intro hu
    obtain ⟨hz, hset⟩ := hcool hu
    have hpos := class_cooldown_pos s.attacker_character.base_class
    refine ⟨hz, ?_⟩
    rcases htick with ht | ⟨ht, ht0⟩
    · omega
    · omega
  · -- defender (player2) health can drop by at most the absolute damage cap
    intro hp1
    have hip : ip = true := htc.2.mpr hp1
    have h6 := hadf.2.2.2.2.2.2.2.2.2.2.1 hip
    have h7 := haw.1
    have hawh := haw.2.2.1
    omega
  · -- Mage special: dot counters bumped on the defender side
    intro hu hp1 hcls
    have hip : ip = true := htc.2.mpr hp1
    obtain ⟨hm1, hm2, hm3, hm4⟩ := hmage hu hip hcls
    have e2 : b4.player2_dot_damage = s.battle.player2_dot_damage := by omega
    have e3 : b4.player2_dot_turns = s.battle.player2_dot_turns := by omega
    have e4 : b4.player1_dot_damage = s.battle.player1_dot_damage := by omega
    have e5 : b4.player1_dot_turns = s.battle.player1_dot_turns := by omega
    rw [e2] at hm1
    rw [e3] at hm2
    refine ⟨?_, ?_, ?_, ?_⟩
    · rw [haw.2.2.2.2.2.1, hadf.2.2.2.2.2.2.2.2.1, hm1]
    · rw [haw.2.2.2.2.2.2.1, hadf.2.2.2.2.2.2.2.2.2.1, hm2]
    · omega
    · omega
  · -- player1 dot counters: unchanged or bumped by the Mage special
    rcases hdots1 with ⟨ha, hb⟩ | ⟨ha, hb⟩
    · exact Or.inl ⟨by omega, by omega⟩
    · have e4 : b4.player1_dot_damage = s.battle.player1_dot_damage := by omega
      have e5 : b4.player1_dot_turns = s.battle.player1_dot_turns := by omega
      rw [e4] at ha
      rw [e5] at hb
      refine Or.inr ⟨?_, ?_⟩
      · rw [haw.2.2.2.1, hadf.2.2.2.2.2.2.1, ha]
      · rw [haw.2.2.2.2.1, hadf.2.2.2.2.2.2.2.1, hb]
  · -- player2 dot counters: unchanged or bumped by the Mage special
    rcases hdots2 with ⟨ha, hb⟩ | ⟨ha, hb⟩
    · exact Or.inl ⟨by omega, by omega⟩
    · have e2 : b4.player2_dot_damage = s.battle.player2_dot_damage := by omega
      have e3 : b4.player2_dot_turns = s.battle.player2_dot_turns := by omega
      rw [e2] at ha
      rw [e3] at hb
      refine Or.inr ⟨?_, ?_⟩
      · rw [haw.2.2.2.2.2.1, hadf.2.2.2.2.2.2.2.2.1, ha]
      · rw [haw.2.2.2.2.2.2.1, hadf.2.2.2.2.2.2.2.2.2.1, hb]
  · -- attacker crit multiplier preserved
    rw [haw.2.2.2.2.2.2.2.2.1, htickp.1, hcrit1]
  · -- defender crit multiplier preserved
    exact haw.2.2.2.2.2.2.2.2.2

-- ------------------------
-- C1
-- ------------------------

theorem approve_ok_last {hash8 : DrawInput → Nat} {now : Int} {creator : Nat}
    {cfgT : Int} {offer : Offer} {request : Request} {pool : EntropyPool}
    {out : ApproveResult}
    (h : approve_challenger hash8 now creator cfgT offer request pool = .ok out) :
    0 < out.battle.last_entropy_index := by
  unfold approve_challenger at h
  split at h
  · simp at h
  split at h
  · simp at h
  split at h
  · simp at h
  try dsimp only at h
  split at h
  · simp at h
  obtain ⟨r, hc, h⟩ := ebind_ok h
  try dsimp only at h
  split at h
  · simp at h
  · rename_i hgt
    simp only [not_not] at hgt
    simp only [Except.ok.injEq] at h
    subst h
    dsimp only
    omega

/-- C1 (confirmed): across consecutive successful entropy-consuming operations
on one battle, `last_entropy_index` strictly increases — the first-mover draw of
`approve_challenger` leaves it strictly above its initial value 0, and every
successful `execute_turn` leaves it strictly above its pre-state value; and any
draw whose returned global index is not strictly greater than the battle's
current `last_entropy_index` makes the checked draw (and hence the operation)
fail with `SeedReplay`. -/
theorem c1_last_entropy_strictly_increases :
    (∀ (hash8 : DrawInput → Nat) (now : Int) (signer : Nat) (st : StanceType)
      (us : Bool) (s s' : TurnState),
      execute_turn hash8 now signer st us s = .ok s' →
      s.battle.last_entropy_index < s'.battle.last_entropy_index)
    ∧ (∀ (hash8 : DrawInput → Nat) (now : Int) (creator : Nat) (cfgT : Int)
      (offer : Offer) (request : Request) (pool : EntropyPool) (out : ApproveResult),
      approve_challenger hash8 now creator cfgT offer request pool = .ok out →
      0 < out.battle.last_entropy_index)
    ∧ (∀ (hash8 : DrawInput → Nat) (signer : Nat) (tag : String) (p : EntropyPool)
      (b : Battle) (lo hi v idx : Nat) (p' : EntropyPool),
      consume_mixed_u64_return_index hash8 p signer tag (b.turn_number % U32) lo hi
        = .ok ((v, idx), p') →
      idx ≤ b.last_entropy_index →
      drawChecked hash8 signer tag p b lo hi = .error .SeedReplay) := by
  refine ⟨fun hash8 now signer st us s s' h => (execute_turn_ok h).1,
    fun hash8 now creator cfgT offer request pool out h => approve_ok_last h, ?_⟩
  intro hash8 signer tag p b lo hi v idx p' hc hle
  unfold drawChecked
  rw [hc]
  dsimp only
  rw [if_neg (by omega)]

/-- Witness for C1: a complete concrete turn strictly raises the battle's
entropy cursor; a concrete approve leaves it positive; and a concrete draw whose
global index (1) does not exceed the battle's cursor (5) yields `SeedReplay`. -/
theorem c1_witness :
    (sC.battle.last_entropy_index <
      (get_ok (execute_turn hashC 5 11 StanceType.Balanced false sC) sC).battle.last_entropy_index) ∧
    (0 < (get_ok (approve_challenger hashC 50 11 300 offerC requestC poolA)
        approveDflt).battle.last_entropy_index) ∧
    drawChecked hashC 3 "base" poolA battleZ 0 9 = .error .SeedReplay := by
  refine ⟨?_, ?_, ?_⟩
  · have hok : exc_ok (execute_turn hashC 5 11 StanceType.Balanced false sC) = true := by
      decide
    cases hres : execute_turn hashC 5 11 StanceType.Balanced false sC with
    | error e => rw [hres] at hok; simp [exc_ok] at hok
    | ok t =>
      exact c1_last_entropy_strictly_increases.1 hashC 5 11 StanceType.Balanced false
        sC t hres
  · have hok : exc_ok (approve_challenger hashC 50 11 300 offerC requestC poolA)
        = true := by decide
    cases hres : approve_challenger hashC 50 11 300 offerC requestC poolA with
    | error e => rw [hres] at hok; simp [exc_ok] at hok
    | ok out =>
      exact c1_last_entropy_strictly_increases.2.1 hashC 50 11 300 offerC requestC
        poolA out hres
  · cases hres : consume_mixed_u64_return_index hashC poolA 3 "base"
        (battleZ.turn_number % U32) 0 9 with
    | error e =>
      have hok : exc_ok (consume_mixed_u64_return_index hashC poolA 3 "base"
          (battleZ.turn_number % U32) 0 9) = true := by decide
      rw [hres] at hok
      simp [exc_ok] at hok
    | ok r =>
      have hr : r = get_ok (consume_mixed_u64_return_index hashC poolA 3 "base"
          (battleZ.turn_number % U32) 0 9) ((0, 0), poolA) := by
        rw [hres]
        rfl
      refine c1_last_entropy_strictly_increases.2.2 hashC 3 "base" poolA battleZ
        0 9 r.1.1 r.1.2 r.2 hres ?_
      rw [hr]
      decide

-- ------------------------
-- C8
-- ------------------------

/-- C8 counterexample: a successful special-using turn by a Warrior (class value
3) ends with `special_cooldown = 2`, because the end-of-turn cooldown tick
(src/game.rs line 657) decrements the value set at line 588 within the same
turn — so "after a successful special-using turn the cooldown equals its
class-specific fixed value" is false. -/
theorem c8_counterexample :
    exc_ok (execute_turn hashC 5 11 StanceType.Balanced true sC8) = true ∧
    sC8.attacker_character.base_class = CharacterClass.Warrior ∧
    (get_ok (execute_turn hashC 5 11 StanceType.Balanced true sC8)
        sC8).attacker_character.special_cooldown = 2 := by
  exact ⟨by decide, by decide, by decide⟩

/-- C8 (corrected): `execute_turn` with `use_special = true` succeeds only if
the attacker's `special_cooldown` is 0 — the special stage fails with
`SpecialOnCooldown` otherwise — and after a successful special-using turn the
cooldown equals the class-specific value minus one (Warrior/Mage 2,
Assassin/Tank 3, Trickster 1), since the same turn's cooldown tick decrements
the just-set value. -/
theorem c8_special_cooldown :
    (∀ (hash8 : DrawInput → Nat) (now : Int) (signer : Nat) (st : StanceType)
      (s s' : TurnState),
      execute_turn hash8 now signer st true s = .ok s' →
      s.attacker_character.special_cooldown = 0 ∧
      s'.attacker_character.special_cooldown
        = class_cooldown s.attacker_character.base_class - 1)
    ∧ (∀ (ip : Bool) (fp : Nat) (b : Battle) (ac : Character),
      ac.special_cooldown ≠ 0 →
      apply_special true ip fp b ac = .error .SpecialOnCooldown) := by
  constructor
  · intro hash8 now signer st s s' h
    exact (execute_turn_ok h).2.1 rfl
  · intro ip fp b ac hcd
    unfold apply_special
    simp only [if_true]
    rw [if_pos hcd]

/-- Witness for C8: the concrete Warrior special turn of `sC8` has pre-cooldown
0 and post-cooldown `class_cooldown Warrior - 1`; and a Warrior whose cooldown
is still 2 gets `SpecialOnCooldown`. -/
theorem c8_witness :
    (sC8.attacker_character.special_cooldown = 0 ∧
      (get_ok (execute_turn hashC 5 11 StanceType.Balanced true sC8)
          sC8).attacker_character.special_cooldown
        = class_cooldown sC8.attacker_character.base_class - 1) ∧
    apply_special true true 1000000 battleC { charPlain 77 with special_cooldown := 2 }
      = .error .SpecialOnCooldown := by
  constructor
  · have hok : exc_ok (execute_turn hashC 5 11 StanceType.Balanced true sC8) = true := by
      decide
    cases hres : execute_turn hashC 5 11 StanceType.Balanced true sC8 with
    | error e => rw [hres] at hok; simp [exc_ok] at hok
    | ok t => exact c8_special_cooldown.1 hashC 5 11 StanceType.Balanced sC8 t hres
  · exact c8_special_cooldown.2 true 1000000 battleC
      { charPlain 77 with special_cooldown := 2 } (by decide)

-- ------------------------
-- C4
-- ------------------------

/-- C4 counterexample: a Mage special turn (state `sC4`) leaves the attacker's
cooldown at 2, not 3, and only records DoT counters (5 damage, 3 turns) on the
battle; on a later turn with that DoT pending (state `sC4b`, direct damage
dodged to 0) the defender's health is unchanged — no 5 extra damage is applied —
and `player2_dot_turns` is not decremented. -/
theorem c4_counterexample :
    exc_ok (execute_turn hashC 5 11 StanceType.Balanced true sC4) = true ∧
    sC4.attacker_character.base_class = CharacterClass.Mage ∧
    (get_ok (execute_turn hashC 5 11 StanceType.Balanced true sC4)
        sC4).attacker_character.special_cooldown = 2 ∧
    (get_ok (execute_turn hashC 5 11 StanceType.Balanced true sC4)
        sC4).battle.player2_dot_damage = 5 ∧
    (get_ok (execute_turn hashC 5 11 StanceType.Balanced true sC4)
        sC4).battle.player2_dot_turns = 3 ∧
    sC4b.battle.player2_dot_damage = 5 ∧
    sC4b.battle.player2_dot_turns = 3 ∧
    exc_ok (execute_turn hashC 5 11 StanceType.Balanced false sC4b) = true ∧
    (get_ok (execute_turn hashC 5 11 StanceType.Balanced false sC4b)
        sC4b).battle.player2_health = sC4b.battle.player2_health ∧
    (get_ok (execute_turn hashC 5 11 StanceType.Balanced false sC4b)
        sC4b).battle.player2_dot_turns = 3 := by
  exact ⟨by decide, by decide, by decide, by decide, by decide, by decide, by decide,
    by decide, by decide, by decide⟩

/-- C4 (corrected): a Mage special by player1 adds 5 to the defender's
`player2_dot_damage` and 3 to `player2_dot_turns` (saturating) and leaves the
attacker's cooldown at 2 (3 minus the same-turn tick); and in every successful
turn the DoT counters either stay exactly as they were or receive that one
Mage-special bump — they are never decremented and never applied to health. -/
theorem c4_mage_dot_counters :
    (∀ (hash8 : DrawInput → Nat) (now : Int) (signer : Nat) (st : StanceType)
      (s s' : TurnState),
      execute_turn hash8 now signer st true s = .ok s' →
      signer = s.battle.player1 →
      s.attacker_character.base_class = CharacterClass.Mage →
      s'.battle.player2_dot_damage = sat64 (s.battle.player2_dot_damage + 5) ∧
      s'.battle.player2_dot_turns = sat8 (s.battle.player2_dot_turns + 3) ∧
      s'.battle.player1_dot_damage = s.battle.player1_dot_damage ∧
      s'.battle.player1_dot_turns = s.battle.player1_dot_turns ∧
      s'.attacker_character.special_cooldown = 2)
    ∧ (∀ (hash8 : DrawInput → Nat) (now : Int) (signer : Nat) (st : StanceType)
      (us : Bool) (s s' : TurnState),
      execute_turn hash8 now signer st us s = .ok s' →
      ((s'.battle.player1_dot_damage = s.battle.player1_dot_damage ∧
          s'.battle.player1_dot_turns = s.battle.player1_dot_turns) ∨
        (s'.battle.player1_dot_damage = sat64 (s.battle.player1_dot_damage + 5) ∧
          s'.battle.player1_dot_turns = sat8 (s.battle.player1_dot_turns + 3))) ∧
      ((s'.battle.player2_dot_damage = s.battle.player2_dot_damage ∧
          s'.battle.player2_dot_turns = s.battle.player2_dot_turns) ∨
        (s'.battle.player2_dot_damage = sat64 (s.battle.player2_dot_damage + 5) ∧
          s'.battle.player2_dot_turns = sat8 (s.battle.player2_dot_turns + 3)))) := by
  constructor
  · intro hash8 now signer st s s' h hp1 hcls
    obtain ⟨-, hcool, -, hmage, -, -, -, -⟩ := execute_turn_ok h
    obtain ⟨hm1, hm2, hm3, hm4⟩ := hmage rfl hp1 hcls
    refine ⟨hm1, hm2, hm3, hm4, ?_⟩
    rw [(hcool rfl).2, hcls]
    decide
  · intro hash8 now signer st us s s' h
    obtain ⟨-, -, -, -, hd1, hd2, -, -⟩ := execute_turn_ok h
    exact ⟨hd1, hd2⟩

/-- Witness for C4 at the concrete Mage special turn `sC4` and the concrete
plain turn `sC`. -/
theorem c4_witness :
    ((get_ok (execute_turn hashC 5 11 StanceType.Balanced true sC4)
        sC4).battle.player2_dot_damage
      = sat64 (sC4.battle.player2_dot_damage + 5) ∧
      (get_ok (execute_turn hashC 5 11 StanceType.Balanced true sC4)
          sC4).attacker_character.special_cooldown = 2) ∧
    (((get_ok (execute_turn hashC 5 11 StanceType.Balanced false sC)
          sC).battle.player2_dot_damage = sC.battle.player2_dot_damage ∧
        (get_ok (execute_turn hashC 5 11 StanceType.Balanced false sC)
          sC).battle.player2_dot_turns = sC.battle.player2_dot_turns) ∨
      ((get_ok (execute_turn hashC 5 11 StanceType.Balanced false sC)
          sC).battle.player2_dot_damage = sat64 (sC.battle.player2_dot_damage + 5) ∧
        (get_ok (execute_turn hashC 5 11 StanceType.Balanced false sC)
          sC).battle.player2_dot_turns = sat8 (sC.battle.player2_dot_turns + 3))) := by
  constructor
  · have hok : exc_ok (execute_turn hashC 5 11 StanceType.Balanced true sC4) = true := by
      decide
    cases hres : execute_turn hashC 5 11 StanceType.Balanced true sC4 with
    | error e => rw [hres] at hok; simp [exc_ok] at hok
    | ok t =>
      have hc4 := c4_mage_dot_counters.1 hashC 5 11 StanceType.Balanced sC4 t hres
        (by decide) (by decide)
      simp only [get_ok]
      exact ⟨hc4.1, hc4.2.2.2.2⟩
  · have hok : exc_ok (execute_turn hashC 5 11 StanceType.Balanced false sC) = true := by
      decide
    cases hres : execute_turn hashC 5 11 StanceType.Balanced false sC with
    | error e => rw [hres] at hok; simp [exc_ok] at hok
    | ok t =>
      exact (c4_mage_dot_counters.2 hashC 5 11 StanceType.Balanced false sC t hres).2

-- ------------------------
-- C7
-- ------------------------

/-- C7 counterexample: in the concrete turn on `sC7` the attacker's base roll is
fixed at 10 (damage range 10-10) and the combined multipliers are
combo 1.15 x special 3 x Berserker 2.0 x Aggressive-defender 1.5 = 10.35; the
defender loses 103 health — more than 10 x the base damage — and the turn
succeeds without any clamping, so the total multiplier is not clamped at 10x. -/
theorem c7_counterexample :
    exc_ok (execute_turn hashC 5 11 StanceType.Berserker true sC7) = true ∧
    sC7.attacker_character.base_damage_max = 10 ∧
    sC7.defender_character.defense = 0 ∧
    sC7.battle.player2_health -
      (get_ok (execute_turn hashC 5 11 StanceType.Berserker true sC7)
        sC7).battle.player2_health = 103 ∧
    10 * 10 < 103 := by
  exact ⟨by decide, by decide, by decide, by decide, by decide⟩

/-- C7 (corrected): the clamp in the damage pipeline is an absolute bound — it
caps the fixed-point damage value at `MAX_TOTAL_MULTIPLIER_FP * FP_SCALE`
(i.e. integer damage at 10,000,000), leaving smaller values unchanged, and a
clamped turn still succeeds; consequently the defender's health loss in any
successful turn is at most 10,000,000 — but the multiplier product itself is
not bounded by 10x. -/
theorem c7_absolute_damage_clamp :
    (∀ fp : Nat, clamp_damage fp ≤ MAX_TOTAL_MULTIPLIER_FP * FP_SCALE) ∧
    (∀ fp : Nat, fp ≤ MAX_TOTAL_MULTIPLIER_FP * FP_SCALE → clamp_damage fp = fp) ∧
    (∀ (hash8 : DrawInput → Nat) (now : Int) (signer : Nat) (st : StanceType)
      (us : Bool) (s s' : TurnState),
      execute_turn hash8 now signer st us s = .ok s' →
      signer = s.battle.player1 →
      s.battle.player2_health - s'.battle.player2_health
        ≤ MAX_TOTAL_MULTIPLIER_FP) := by
  have hfp : MAX_TOTAL_MULTIPLIER_FP * FP_SCALE = 10000000000000 := rfl
  refine ⟨?_, ?_, ?_⟩
  · intro fp
    unfold clamp_damage
    split <;> omega
  · intro fp hle
    unfold clamp_damage
    split
    · omega
    · rfl
  · intro hash8 now signer st us s s' h hp1
    exact (execute_turn_ok h).2.2.1 hp1

/-- Witness for C7: the clamp function at concrete inputs, and the bounded
health loss on the concrete turn `sC7`. -/
theorem c7_witness :
    clamp_damage 20000000000000 ≤ MAX_TOTAL_MULTIPLIER_FP * FP_SCALE ∧
    clamp_damage 123456 = 123456 ∧
    sC7.battle.player2_health -
      (get_ok (execute_turn hashC 5 11 StanceType.Berserker true sC7)
        sC7).battle.player2_health ≤ MAX_TOTAL_MULTIPLIER_FP := by
  refine ⟨c7_absolute_damage_clamp.1 20000000000000,
    c7_absolute_damage_clamp.2.1 123456 (by decide), ?_⟩
  have hok : exc_ok (execute_turn hashC 5 11 StanceType.Berserker true sC7) = true := by
    decide
  cases hres : execute_turn hashC 5 11 StanceType.Berserker true sC7 with
  | error e => rw [hres] at hok; simp [exc_ok] at hok
  | ok t =>
    exact c7_absolute_damage_clamp.2.2 hashC 5 11 StanceType.Berserker true sC7 t
      hres (by decide)

-- ------------------------
-- C5
-- ------------------------

theorem mul_fp_checked_zero_right (a : Nat) : mul_fp_checked a 0 = .ok 0 := by
  unfold mul_fp_checked
  norm_num [U128]

theorem apply_special_zero {us ip : Bool} {b : Battle} {ac : Character}
    {d : Nat} {b' : Battle} {ac' : Character}
    (h : apply_special us ip 0 b ac = .ok (d, b', ac')) : d = 0 := by
  unfold apply_special at h
  cases us with
  | false =>
    simp only [Bool.false_eq_true, if_false] at h
    simp only [Except.ok.injEq, Prod.mk.injEq] at h
    omega
  | true =>
    simp only [if_true] at h
    split at h
    · simp at h
    cases hclass : ac.base_class <;> rw [hclass] at h <;> dsimp only at h
    case Warrior =>
      rw [mul_fp_checked_zero] at h
      dsimp only at h
      simp only [Except.ok.injEq, Prod.mk.injEq] at h
      omega
    case Assassin =>
      rw [mul_fp_checked_zero] at h
      dsimp only at h
      simp only [Except.ok.injEq, Prod.mk.injEq] at h
      omega
    case Mage =>
      simp only [Except.ok.injEq, Prod.mk.injEq] at h
      omega
    case Tank =>
      simp only [Except.ok.injEq, Prod.mk.injEq] at h
      omega
    case Trickster =>
      rw [mul_fp_checked_zero] at h
      dsimp only at h
      simp only [Except.ok.injEq, Prod.mk.injEq] at h
      omega

theorem fp_to_u64_zero : fp_to_u64_clamped 0 = .ok 0 := by
  unfold fp_to_u64_clamped
  norm_num [FP_SCALE, U64]

/-- If the crit branch fires with a zero `crit_multiplier_fp`, the pipeline's
final damage is 0. -/
theorem compute_damage_crit_zero {ip us : Bool} {base bu dr : Nat} {b : Battle}
    {ac dc : Character} {fd sb cb : Nat} {b' : Battle} {ac' : Character}
    (h : compute_damage ip us true base bu dr b ac dc = .ok (fd, sb, cb, b', ac'))
    (hz : ac.crit_multiplier_fp = 0) : fd = 0 := by
  unfold compute_damage at h
  obtain ⟨fp0, hA, h⟩ := ebind_ok h
  obtain ⟨fp1, hB, h⟩ := ebind_ok h
  rw [hz] at hB
  simp only [if_true, Nat.min_zero, mul_fp_checked_zero_right,
    Except.ok.injEq] at hB
  subst hB
  obtain ⟨dc1, hC, h⟩ := ebind_ok h
  obtain ⟨fp2, ac1⟩ := dc1
  have hz2 := apply_combo_zero hC
  subst hz2
  obtain ⟨dbc, hD, h⟩ := ebind_ok h
  obtain ⟨fp3, b1, ac2⟩ := dbc
  dsimp only at h hD
  have hz3 := apply_special_zero hD
  subst hz3
  obtain ⟨fp4, hE, h⟩ := ebind_ok h
  rw [mul_fp_checked_zero] at hE
  simp only [Except.ok.injEq] at hE
  subst hE
  obtain ⟨fp5, hF, h⟩ := ebind_ok h
  rw [mul_fp_checked_zero] at hF
  simp only [Except.ok.injEq] at hF
  subst hF
  obtain ⟨fd0, hG, h⟩ := ebind_ok h
  have hcl : clamp_damage 0 = 0 := by decide
  rw [hcl, fp_to_u64_zero] at hG
  simp only [Except.ok.injEq] at hG
  subst hG
  split at h <;>
    simp only [Except.ok.injEq, Prod.mk.injEq] at h <;>
    omega

/-- C5 (confirmed): `create_character_from_nft` leaves `crit_multiplier_fp` at
its Anchor zero-initialized value 0; neither `apply_trait_bundle`,
`level_up_if_needed` nor `execute_turn` ever writes it; and when a critical hit
fires with `crit_multiplier_fp = 0` the damage is multiplied by
`min 2000000 0 = 0`, so the pipeline's final damage is 0 and applying damage 0
leaves both healths unchanged. -/
theorem c5_crit_multiplier_zero :
    (∀ (nft : Nat) (cls : CharacterClass) (now : Int),
      (create_character_from_nft nft cls now).crit_multiplier_fp = 0)
    ∧ (∀ (ch : Character) (bundle : TraitBundle),
      (apply_trait_bundle ch bundle).crit_multiplier_fp = ch.crit_multiplier_fp)
    ∧ (∀ (pr : Progression) (c : Character),
      (level_up_if_needed pr c).2.crit_multiplier_fp = c.crit_multiplier_fp)
    ∧ (∀ (hash8 : DrawInput → Nat) (now : Int) (signer : Nat) (st : StanceType)
      (us : Bool) (s s' : TurnState),
      execute_turn hash8 now signer st us s = .ok s' →
      s'.attacker_character.crit_multiplier_fp
        = s.attacker_character.crit_multiplier_fp ∧
      s'.defender_character.crit_multiplier_fp
        = s.defender_character.crit_multiplier_fp)
    ∧ (∀ (ip us : Bool) (base bu dr : Nat) (b : Battle) (ac dc : Character)
      (fd sb cb : Nat) (b' : Battle) (ac' : Character),
      compute_damage ip us true base bu dr b ac dc = .ok (fd, sb, cb, b', ac') →
      ac.crit_multiplier_fp = 0 → fd = 0)
    ∧ (∀ (ip : Bool) (sb cb : Nat) (b : Battle),
      (apply_damage_and_effects ip 0 sb cb b).player1_health = b.player1_health ∧
      (apply_damage_and_effects ip 0 sb cb b).player2_health = b.player2_health) := by
  refine ⟨?_, ?_, ?_, ?_, ?_, ?_⟩
  · intro nft cls now
    unfold create_character_from_nft
    cases cls <;> rfl
  · intro ch bundle
    rfl
  · intro pr c
    exact level_up_crit pr c
  · intro hash8 now signer st us s s' h
    obtain ⟨-, -, -, -, -, -, hac, hdc⟩ := execute_turn_ok h
    exact ⟨hac, hdc⟩
  · intro ip us base bu dr b ac dc fd sb cb b' ac' h hz
    exact compute_damage_crit_zero h hz
  · intro ip sb cb b
    exact apply_damage_zero ip sb cb b

/-- Witness for C5: concrete character creation, trait application, level-up,
a full concrete turn, a concrete crit-firing pipeline run (the `sC` attacker, a
Warrior with `crit_multiplier_fp = 0`, crit roll 0 < 1500), and damage-0
application. -/
theorem c5_witness :
    (create_character_from_nft 77 CharacterClass.Warrior 0).crit_multiplier_fp = 0 ∧
    (apply_trait_bundle (charPlain 77)
        { rarity := 3, attack_bps := 100, defense_bps := -50, crit_bps := 25, nonce := 1 }
      ).crit_multiplier_fp = (charPlain 77).crit_multiplier_fp ∧
    (level_up_if_needed { progL1 77 with xp := 150 }
        (charPlain 77)).2.crit_multiplier_fp = (charPlain 77).crit_multiplier_fp ∧
    (get_ok (execute_turn hashC 5 11 StanceType.Balanced false sC)
        sC).attacker_character.crit_multiplier_fp
      = sC.attacker_character.crit_multiplier_fp ∧
    exc_ok (compute_damage true false true 8 8 0 battleC
        (create_character_from_nft 77 CharacterClass.Warrior 0)
        (create_character_from_nft 88 CharacterClass.Warrior 0)) = true ∧
    (get_ok (compute_damage true false true 8 8 0 battleC
        (create_character_from_nft 77 CharacterClass.Warrior 0)
        (create_character_from_nft 88 CharacterClass.Warrior 0))
      (0, 0, 0, battleC, charPlain 77)).1 = 0 ∧
    (apply_damage_and_effects true 0 2500 0 battleC).player2_health
      = battleC.player2_health := by
  refine ⟨c5_crit_multiplier_zero.1 77 CharacterClass.Warrior 0,
    c5_crit_multiplier_zero.2.1 (charPlain 77) _,
    c5_crit_multiplier_zero.2.2.1 _ (charPlain 77), ?_, by decide, ?_, ?_⟩
  · have hok : exc_ok (execute_turn hashC 5 11 StanceType.Balanced false sC) = true := by
      decide
    cases hres : execute_turn hashC 5 11 StanceType.Balanced false sC with
    | error e => rw [hres] at hok; simp [exc_ok] at hok
    | ok t =>
      exact (c5_crit_multiplier_zero.2.2.2.1 hashC 5 11 StanceType.Balanced false
        sC t hres).1
  · cases hres : compute_damage true false true 8 8 0 battleC
        (create_character_from_nft 77 CharacterClass.Warrior 0)
        (create_character_from_nft 88 CharacterClass.Warrior 0) with
    | error e =>
      have hok : exc_ok (compute_damage true false true 8 8 0 battleC
          (create_character_from_nft 77 CharacterClass.Warrior 0)
          (create_character_from_nft 88 CharacterClass.Warrior 0)) = true := by decide
      rw [hres] at hok
      simp [exc_ok] at hok
    | ok r =>
      exact c5_crit_multiplier_zero.2.2.2.2.1 true false 8 8 0 battleC _ _ r.1 r.2.1
        r.2.2.1 r.2.2.2.1 r.2.2.2.2 hres (by decide)
  · exact (c5_crit_multiplier_zero.2.2.2.2.2 true 2500 0 battleC).2

-- ------------------------
-- C6
-- ------------------------

/-- C6 (code bug): in the concrete state `sC6` the attacker is player2 (pubkey
22) and the turn is lethal, so the battle finishes with winner player2; but the
code's XP branch (src/game.rs lines 670-679) keys on `winner == player1` over
the attacker/defender accounts, so the 100 XP and the level-up go to
`defender_prog`/`defender_character` — player1, the *loser* — while the winner's
progression is untouched. The spec says the winner's progression gains 100 XP. -/
theorem c6_winner_xp_eval :
    exc_ok (execute_turn hashC 5 22 StanceType.Balanced false sC6) = true ∧
    sC6.battle.player2 = 22 ∧
    (get_ok (execute_turn hashC 5 22 StanceType.Balanced false sC6) sC6).battle.winner
      = some 22 ∧
    (get_ok (execute_turn hashC 5 22 StanceType.Balanced false sC6)
        sC6).attacker_prog.xp = sC6.attacker_prog.xp ∧
    (get_ok (execute_turn hashC 5 22 StanceType.Balanced false sC6)
        sC6).attacker_prog.level = 1 ∧
    (get_ok (execute_turn hashC 5 22 StanceType.Balanced false sC6)
        sC6).defender_prog.level = 2 ∧
    (get_ok (execute_turn hashC 5 22 StanceType.Balanced false sC6)
        sC6).defender_prog.xp = 0 := by
  exact ⟨by decide, by decide, by decide, by decide, by decide, by decide, by decide⟩
